import Mathlib

/-!
# ESP overlay (`Hacks/Esp.cpp`): embedding and verification

The translation unit `Hacks/Esp.cpp` is embedded function by function.

Conventions of the embedding.

* C++ `float` values are exact rationals (`ℚ`): rounding, infinities and NaN are
  outside the model.  The literal `0.001f` is the rational `1/1000`.
* C++ `int` values are mathematical integers (`Int`); `a / b` on `int` is the
  truncating `Int.tdiv`.  Screen sizes and entity indices stay far below `2^31`,
  so no wrap-around is modelled.
* Everything the host process supplies (engine, entity list, surface queries,
  console variables, the ray tracer) and the SDK helpers whose headers are not
  part of the translation unit (`Vector::transform`, `Vector::length`, the
  `Vector` operators `+` and `-`, `sqrtf`, `cos`, `sin`, `degreesToRadians`)
  are fields of the structure `Interfaces`, so every theorem holds for every
  behaviour of the host.
* A renderer returns, in program order, the list of its observable events: the
  calls it makes on the drawing surface and its lookups in the entity table.
* The answers of the host are the same throughout one frame, so a `for` loop
  over an `int` range whose bounds are host queries runs over the list of its
  index values (`loopIndices`).
-/

namespace Jweega

/-! ## Data model -/

/-- The SDK type `Vector`: three `float` components. -/
structure Vector where
  x : ℚ
  y : ℚ
  z : ℚ
deriving DecidableEq

/-- A colour `float[3]` of the configuration. -/
structure Color where
  r : ℚ
  g : ℚ
  b : ℚ
deriving DecidableEq

/-- The SDK type `matrix3x4` returned by `coordinateFrame()`. -/
abbrev Matrix3x4 := Fin 3 → Fin 4 → ℚ

/-- The 4x4 matrix returned by `worldToScreenMatrix()`. -/
abbrev Matrix4x4 := Fin 4 → Fin 4 → ℚ

/-- What the accessors of an `Entity*` return during one frame.  `addr` is the
pointer value itself: `entity == localPlayer` compares addresses. -/
structure Entity where
  addr : Nat
  index : Int
  isDormant : Bool
  isAlive : Bool
  isEnemy : Bool
  isVisible : Bool
  isWeapon : Bool
  ownerEntity : Int
  health : Int
  armor : Int
  account : Int
  getAbsOrigin : Vector
  getBonePosition : Int → Vector
  eyeAngles : Vector
  obbMins : Vector
  obbMaxs : Vector
  coordinateFrame : Matrix3x4

/-- The global `interfaces` (engine, entityList, surface, cvar, engineTrace)
together with the SDK and libm helpers declared outside the translation unit. -/
structure Interfaces where
  worldToScreenMatrix : Matrix4x4
  getScreenSize : Int × Int
  isInGame : Bool
  getLocalPlayer : Int
  getMaxClients : Int
  getHighestEntityIndex : Int
  getEntity : Int → Option Entity
  getPlayerInfo : Int → Option String
  multiByteToWideChar : String → Option String
  getTextSize : Nat → String → Int × Int
  findVarGetInt : String → Int
  traceRay : Vector → Vector → Nat → Entity → Vector × Vector
  transform : Vector → Matrix3x4 → Vector
  vectorAdd : Vector → Vector → Vector
  vectorSub : Vector → Vector → Vector
  length : Vector → ℚ
  sqrtf : ℚ → ℚ
  cos : ℚ → ℚ
  sin : ℚ → ℚ
  degreesToRadians : ℚ → ℚ

/-- A call on `interfaces.surface` that changes what is drawn. -/
inductive SurfaceCall where
  | setDrawColor (color : Color) (alpha : Int)
  | drawLine (x0 y0 x1 y1 : ℚ)
  | drawOutlinedRect (x0 y0 x1 y1 : ℚ)
  | drawFilledRect (x0 y0 x1 y1 : ℚ)
  | drawCircle (x y : ℚ) (startRadius radius : Int)
  | setTextFont (font : Nat)
  | setTextColor (color : Color) (alpha : Int)
  | setTextPosition (x y : ℚ)
  | printText (text : String)
deriving DecidableEq

/-- What a renderer does that is observable from outside: a lookup in the
entity table, or a call on the drawing surface. -/
inductive Event where
  | getEntity (i : Int)
  | surface (call : SurfaceCall)
deriving DecidableEq

/-- The struct `Config::Esp::Shared`: the settings common to players and weapons. -/
structure Shared where
  enabled : Bool
  snaplines : Bool
  snaplinesColor : Color
  box : Bool
  boxColor : Color
  boxType : Int
  outline : Bool
  outlineColor : Color

/-- The struct `Config::Esp::Player`: `Shared` plus the player-only settings. -/
structure Player extends Shared where
  font : Nat
  eyeTraces : Bool
  eyeTracesColor : Color
  healthBar : Bool
  healthBarColor : Color
  armorBar : Bool
  armorBarColor : Color
  name : Bool
  nameColor : Color
  health : Bool
  healthColor : Color
  armor : Bool
  armorColor : Color
  money : Bool
  moneyColor : Color
  headDot : Bool
  headDotColor : Color

/-- The struct `Config::Esp::Weapon`: `Shared` only. -/
structure Weapon extends Shared

/-- The enumeration `EspId`, in declaration order. -/
inductive EspId where
  | ALLIES_ALL
  | ALLIES_VISIBLE
  | ALLIES_OCCLUDED
  | ENEMIES_ALL
  | ENEMIES_VISIBLE
  | ENEMIES_OCCLUDED
deriving DecidableEq

/-- The part `config.esp` of the global configuration. -/
structure EspConfig where
  players : EspId → Player
  weapon : Weapon

/-- The conversion `static_cast<int>` of a `float`: truncation toward zero. -/
def floatToInt (q : ℚ) : Int := Int.tdiv q.num q.den

/-! ## `worldToScreen` -/

/-- The homogeneous coordinate `w` computed on line 12. -/
def clipW (m : Matrix4x4) (p : Vector) : ℚ :=
  m 3 0 * p.x + m 3 1 * p.y + m 3 2 * p.z + m 3 3

/-- The sum `matrix[0][0] * in.x + ... + matrix[0][3]` of line 16. -/
def clipX (m : Matrix4x4) (p : Vector) : ℚ :=
  m 0 0 * p.x + m 0 1 * p.y + m 0 2 * p.z + m 0 3

/-- The sum `matrix[1][0] * in.x + ... + matrix[1][3]` of line 17. -/
def clipY (m : Matrix4x4) (p : Vector) : ℚ :=
  m 1 0 * p.x + m 1 1 * p.y + m 1 2 * p.z + m 1 3

/-- The function `worldToScreen(in, out)`: the returned pair is the `bool` result and the
value of the reference parameter `out` after the call. -/
def worldToScreen (I : Interfaces) (p : Vector) (out : Vector) : Bool × Vector :=
  let matrix := I.worldToScreenMatrix
  let w := matrix 3 0 * p.x + matrix 3 1 * p.y + matrix 3 2 * p.z + matrix 3 3
  if w > 1 / 1000 then
    let width := I.getScreenSize.1
    let height := I.getScreenSize.2
    (true,
      { x := ((Int.tdiv width 2 : Int) : ℚ) *
          (1 + (matrix 0 0 * p.x + matrix 0 1 * p.y + matrix 0 2 * p.z + matrix 0 3) / w)
        y := ((Int.tdiv height 2 : Int) : ℚ) *
          (1 - (matrix 1 0 * p.x + matrix 1 1 * p.y + matrix 1 2 * p.z + matrix 1 3) / w)
        z := 0 })
  else
    (false, out)

/-! ## Snaplines, eye traces, text -/

/-- The function `renderSnaplines(entity, config)`. -/
def renderSnaplines (I : Interfaces) (entity : Entity) (config : Shared) : List Event :=
  if config.snaplines then
    let r := worldToScreen I entity.getAbsOrigin { x := 0, y := 0, z := 0 }
    if r.1 then
      let position := r.2
      let width := I.getScreenSize.1
      let height := I.getScreenSize.2
      [Event.surface (SurfaceCall.setDrawColor config.snaplinesColor 255),
       Event.surface (SurfaceCall.drawLine (Int.tdiv width 2 : Int) (height : Int)
         (floatToInt position.x : Int) (floatToInt position.y : Int))]
    else []
  else []

/-- The function `renderEyeTraces(entity, config)`.  `traceRay` returns the fields `startpos`
and `endpos` of the trace it fills in; `start` and `end` are declared without an
initialiser and are only read after `worldToScreen` has written them. -/
def renderEyeTraces (I : Interfaces) (entity : Entity) (config : Player) : List Event :=
  if config.eyeTraces then
    let maxRange : ℚ := 8192
    let eyeAngles := entity.eyeAngles
    let viewAngles : Vector :=
      { x := I.cos (I.degreesToRadians eyeAngles.x) * I.cos (I.degreesToRadians eyeAngles.y) * maxRange
        y := I.cos (I.degreesToRadians eyeAngles.x) * I.sin (I.degreesToRadians eyeAngles.y) * maxRange
        z := -I.sin (I.degreesToRadians eyeAngles.x) * maxRange }
    let headPosition := entity.getBonePosition 8
    let trace := I.traceRay headPosition (I.vectorAdd headPosition viewAngles) 0x46004009 entity
    let s := worldToScreen I trace.1 { x := 0, y := 0, z := 0 }
    if s.1 then
      let e := worldToScreen I trace.2 { x := 0, y := 0, z := 0 }
      if e.1 then
        [Event.surface (SurfaceCall.setDrawColor config.eyeTracesColor 255),
         Event.surface (SurfaceCall.drawLine s.2.x s.2.y e.2.x e.2.y)]
      else []
    else []
  else []

/-- The function `renderPositionedText(font, text, color, position)`: the calls made and the
value of the reference `position.second` after the call. -/
def renderPositionedText (I : Interfaces) (font : Nat) (text : String) (color : Color)
    (position : ℚ × ℚ) : List Event × ℚ :=
  ([Event.surface (SurfaceCall.setTextFont font),
    Event.surface (SurfaceCall.setTextColor color 255),
    Event.surface (SurfaceCall.setTextPosition position.1 position.2),
    Event.surface (SurfaceCall.printText text)],
   position.2 + ((I.getTextSize font text).2 : Int))

/-! ## Bounding box -/

/-- The struct `BoundingBox`.  `vertices` is the array `Vector vertices[8]`,
read and written at the indices `0..7`. -/
structure BoundingBox where
  left : ℚ
  right : ℚ
  top : ℚ
  bottom : ℚ
  vertices : Nat → Vector

/-- The contents given to a `BoundingBox bbox;` declared without initialiser.
The four bounds and the eight vertices are all written before `boundingBox`
returns true, and nothing is read from the box when it returns false. -/
def BoundingBox.uninitialized : BoundingBox :=
  { left := 0, right := 0, top := 0, bottom := 0, vertices := fun _ => { x := 0, y := 0, z := 0 } }

/-- The corner `point` built in iteration `i` of the loop of `boundingBox`. -/
def obbCorner (entity : Entity) (i : Nat) : Vector :=
  let min := entity.obbMins
  let max := entity.obbMaxs
  { x := if i &&& 1 ≠ 0 then max.x else min.x
    y := if i &&& 2 ≠ 0 then max.y else min.y
    z := if i &&& 4 ≠ 0 then max.z else min.z }

/-- The loop `for (int i = ...; i < 8; i++)` of `boundingBox`, started at index `i`
with `n` iterations left (`n = 8 - i`). -/
def boundingBoxLoop (I : Interfaces) (entity : Entity) : Nat → Nat → BoundingBox → Bool × BoundingBox
  | 0, _, out => (true, out)
  | n + 1, i, out =>
    let point := obbCorner entity i
    let r := worldToScreen I (I.transform point entity.coordinateFrame) (out.vertices i)
    let out := { out with vertices := Function.update out.vertices i r.2 }
    if !r.1 then
      (false, out)
    else
      let out := if out.left > (out.vertices i).x then { out with left := (out.vertices i).x } else out
      let out := if out.right < (out.vertices i).x then { out with right := (out.vertices i).x } else out
      let out := if out.top < (out.vertices i).y then { out with top := (out.vertices i).y } else out
      let out := if out.bottom > (out.vertices i).y then { out with bottom := (out.vertices i).y } else out
      boundingBoxLoop I entity n (i + 1) out

/-- The function `boundingBox(entity, out)`: the `bool` result and `out` after the call. -/
def boundingBox (I : Interfaces) (entity : Entity) (out : BoundingBox) : Bool × BoundingBox :=
  let width := I.getScreenSize.1
  let height := I.getScreenSize.2
  let out := { out with left := ((width * 2 : Int) : ℚ) }
  let out := { out with right := -((width * 2 : Int) : ℚ) }
  let out := { out with top := -((height * 2 : Int) : ℚ) }
  let out := { out with bottom := ((height * 2 : Int) : ℚ) }
  boundingBoxLoop I entity 8 0 out

/-! ## Boxes -/

/-- A `drawLine` call, as an event. -/
def line (x0 y0 x1 y1 : ℚ) : Event := Event.surface (SurfaceCall.drawLine x0 y0 x1 y1)

/-- The function `renderBox(entity, bbox, config)`. -/
def renderBox (_I : Interfaces) (_entity : Entity) (bbox : BoundingBox) (config : Shared) : List Event :=
  if config.box then
    Event.surface (SurfaceCall.setDrawColor config.boxColor 255) ::
    (if config.boxType = 0 then
      Event.surface (SurfaceCall.drawOutlinedRect bbox.left bbox.bottom bbox.right bbox.top) ::
      (if config.outline then
        [Event.surface (SurfaceCall.setDrawColor config.outlineColor 255),
         Event.surface (SurfaceCall.drawOutlinedRect (bbox.left + 1) (bbox.bottom + 1) (bbox.right - 1) (bbox.top - 1)),
         Event.surface (SurfaceCall.drawOutlinedRect (bbox.left - 1) (bbox.bottom - 1) (bbox.right + 1) (bbox.top + 1))]
      else [])
    else if config.boxType = 1 then
      [line bbox.left bbox.bottom bbox.left (bbox.bottom + |bbox.top - bbox.bottom| / 4),
       line bbox.left bbox.bottom (bbox.left + |bbox.right - bbox.left| / 4) bbox.bottom,
       line bbox.right bbox.bottom (bbox.right - |bbox.right - bbox.left| / 4) bbox.bottom,
       line bbox.right bbox.bottom bbox.right (bbox.bottom + |bbox.top - bbox.bottom| / 4),
       line bbox.left bbox.top bbox.left (bbox.top - |bbox.top - bbox.bottom| / 4),
       line bbox.left bbox.top (bbox.left + |bbox.right - bbox.left| / 4) bbox.top,
       line bbox.right bbox.top (bbox.right - |bbox.right - bbox.left| / 4) bbox.top,
       line bbox.right bbox.top bbox.right (bbox.top - |bbox.top - bbox.bottom| / 4)] ++
      (if config.outline then
        [Event.surface (SurfaceCall.setDrawColor config.outlineColor 255),
         line (bbox.left - 1) (bbox.bottom - 1) (bbox.left - 1) (bbox.bottom + |bbox.top - bbox.bottom| / 4),
         line (bbox.left - 1) (bbox.bottom - 1) (bbox.left + |bbox.right - bbox.left| / 4) (bbox.bottom - 1),
         line (bbox.right + 1) (bbox.bottom - 1) (bbox.right - |bbox.right - bbox.left| / 4) (bbox.bottom - 1),
         line (bbox.right + 1) (bbox.bottom - 1) (bbox.right + 1) (bbox.bottom + |bbox.top - bbox.bottom| / 4),
         line (bbox.left - 1) (bbox.top + 1) (bbox.left - 1) (bbox.top - |bbox.top - bbox.bottom| / 4),
         line (bbox.left - 1) (bbox.top + 1) (bbox.left + |bbox.right - bbox.left| / 4) (bbox.top + 1),
         line (bbox.right + 1) (bbox.top + 1) (bbox.right - |bbox.right - bbox.left| / 4) (bbox.top + 1),
         line (bbox.right + 1) (bbox.top + 1) (bbox.right + 1) (bbox.top - |bbox.top - bbox.bottom| / 4)]
      else [])
    else if config.boxType = 2 then
      (List.range 8).flatMap fun i =>
        (if i &&& 1 = 0 then
          [line (bbox.vertices i).x (bbox.vertices i).y (bbox.vertices (i + 1)).x (bbox.vertices (i + 1)).y]
        else []) ++
        (if i &&& 2 = 0 then
          [line (bbox.vertices i).x (bbox.vertices i).y (bbox.vertices (i + 2)).x (bbox.vertices (i + 2)).y]
        else []) ++
        (if i &&& 4 = 0 then
          [line (bbox.vertices i).x (bbox.vertices i).y (bbox.vertices (i + 4)).x (bbox.vertices (i + 4)).y]
        else [])
    else if config.boxType = 3 then
      (List.range 8).flatMap fun i =>
        (if i &&& 1 = 0 then
          [line (bbox.vertices i).x (bbox.vertices i).y
             ((bbox.vertices i).x + ((bbox.vertices (i + 1)).x - (bbox.vertices i).x) * (1 / 4))
             ((bbox.vertices i).y + ((bbox.vertices (i + 1)).y - (bbox.vertices i).y) * (1 / 4)),
           line ((bbox.vertices i).x + ((bbox.vertices (i + 1)).x - (bbox.vertices i).x) * (3 / 4))
             ((bbox.vertices i).y + ((bbox.vertices (i + 1)).y - (bbox.vertices i).y) * (3 / 4))
             (bbox.vertices (i + 1)).x (bbox.vertices (i + 1)).y]
        else []) ++
        (if i &&& 2 = 0 then
          [line (bbox.vertices i).x (bbox.vertices i).y
             ((bbox.vertices i).x + ((bbox.vertices (i + 2)).x - (bbox.vertices i).x) * (1 / 4))
             ((bbox.vertices i).y + ((bbox.vertices (i + 2)).y - (bbox.vertices i).y) * (1 / 4)),
           line ((bbox.vertices i).x + ((bbox.vertices (i + 2)).x - (bbox.vertices i).x) * (3 / 4))
             ((bbox.vertices i).y + ((bbox.vertices (i + 2)).y - (bbox.vertices i).y) * (3 / 4))
             (bbox.vertices (i + 2)).x (bbox.vertices (i + 2)).y]
        else []) ++
        (if i &&& 4 = 0 then
          [line (bbox.vertices i).x (bbox.vertices i).y
             ((bbox.vertices i).x + ((bbox.vertices (i + 4)).x - (bbox.vertices i).x) * (1 / 4))
             ((bbox.vertices i).y + ((bbox.vertices (i + 4)).y - (bbox.vertices i).y) * (1 / 4)),
           line ((bbox.vertices i).x + ((bbox.vertices (i + 4)).x - (bbox.vertices i).x) * (3 / 4))
             ((bbox.vertices i).y + ((bbox.vertices (i + 4)).y - (bbox.vertices i).y) * (3 / 4))
             (bbox.vertices (i + 4)).x (bbox.vertices (i + 4)).y]
        else [])
    else [])
  else []

/-- The value `maxHealth` of `renderPlayerBox`: `game_type` and
`sv_dz_player_max_health` are the console variables found by `findVar`. -/
def maxHealth (I : Interfaces) (entity : Entity) : Int :=
  max (if I.findVarGetInt "game_type" = 6 then I.findVarGetInt "sv_dz_player_max_health" else 100)
    entity.health

/-- The part of `renderPlayerBox` guarded by `if (config.healthBar)`: the calls
made and `drawPositionX` afterwards. -/
def renderHealthBar (I : Interfaces) (entity : Entity) (bbox : BoundingBox) (config : Player)
    (drawPositionX : ℚ) : List Event × ℚ :=
  if config.healthBar then
    let maxHealth := maxHealth I entity
    ([Event.surface (SurfaceCall.setDrawColor config.healthBarColor 255),
      Event.surface (SurfaceCall.drawFilledRect (drawPositionX - 3)
        (bbox.bottom + |bbox.top - bbox.bottom| * ((maxHealth - entity.health : Int) : ℚ) / (maxHealth : ℚ))
        drawPositionX bbox.top)] ++
     (if config.outline then
        [Event.surface (SurfaceCall.setDrawColor config.outlineColor 255),
         Event.surface (SurfaceCall.drawOutlinedRect (drawPositionX - 4) (bbox.bottom - 1)
           (drawPositionX + 1) (bbox.top + 1))]
      else []),
     drawPositionX - 7)
  else ([], drawPositionX)

/-- The part of `renderPlayerBox` guarded by `if (config.armorBar)`: the calls
made and `drawPositionX` afterwards. -/
def renderArmorBar (_I : Interfaces) (entity : Entity) (bbox : BoundingBox) (config : Player)
    (drawPositionX : ℚ) : List Event × ℚ :=
  if config.armorBar then
    ([Event.surface (SurfaceCall.setDrawColor config.armorBarColor 255),
      Event.surface (SurfaceCall.drawFilledRect (drawPositionX - 3)
        (bbox.bottom + |bbox.top - bbox.bottom| * (100 - (entity.armor : ℚ)) / 100)
        drawPositionX bbox.top)] ++
     (if config.outline then
        [Event.surface (SurfaceCall.setDrawColor config.outlineColor 255),
         Event.surface (SurfaceCall.drawOutlinedRect (drawPositionX - 4) (bbox.bottom - 1)
           (drawPositionX + 1) (bbox.top + 1))]
      else []),
     drawPositionX - 7)
  else ([], drawPositionX)

/-- The part of `renderPlayerBox` guarded by `if (config.name)`. -/
def renderName (I : Interfaces) (entity : Entity) (bbox : BoundingBox) (config : Player) : List Event :=
  if config.name then
    match I.getPlayerInfo entity.index with
    | some playerInfoName =>
      match I.multiByteToWideChar playerInfoName with
      | some name =>
        let width := (I.getTextSize config.font name).1
        let height := (I.getTextSize config.font name).2
        [Event.surface (SurfaceCall.setTextFont config.font),
         Event.surface (SurfaceCall.setTextColor config.nameColor 255),
         Event.surface (SurfaceCall.setTextPosition
           (bbox.left + (|bbox.right - bbox.left| - (width : Int)) / 2)
           (bbox.bottom - 5 - (height : Int))),
         Event.surface (SurfaceCall.printText name)]
      | none => []
    | none => []
  else []

/-- The three labels at the end of `renderPlayerBox` (health, armor, money),
stacked from `drawPositionY = bbox.bottom` downward. -/
def renderLabels (I : Interfaces) (entity : Entity) (bbox : BoundingBox) (config : Player) : List Event :=
  let drawPositionY := bbox.bottom
  let h := if config.health then
      renderPositionedText I config.font (toString entity.health ++ " HP") config.healthColor
        (bbox.right + 5, drawPositionY)
    else ([], drawPositionY)
  let a := if config.armor then
      renderPositionedText I config.font (toString entity.armor ++ " AR") config.armorColor
        (bbox.right + 5, h.2)
    else ([], h.2)
  let m := if config.money then
      renderPositionedText I config.font ("$" ++ toString entity.account) config.moneyColor
        (bbox.right + 5, a.2)
    else ([], a.2)
  h.1 ++ a.1 ++ m.1

/-- The function `renderPlayerBox(entity, config)`. -/
def renderPlayerBox (I : Interfaces) (entity : Entity) (config : Player) : List Event :=
  let r := boundingBox I entity BoundingBox.uninitialized
  if r.1 then
    let bbox := r.2
    let drawPositionX := bbox.left - 5
    let healthBar := renderHealthBar I entity bbox config drawPositionX
    let armorBar := renderArmorBar I entity bbox config healthBar.2
    renderBox I entity bbox config.toShared ++ healthBar.1 ++ armorBar.1 ++
      renderName I entity bbox config ++ renderLabels I entity bbox config
  else []

/-- The function `renderWeaponBox(entity, config)`. -/
def renderWeaponBox (I : Interfaces) (entity : Entity) (config : Weapon) : List Event :=
  let r := boundingBox I entity BoundingBox.uninitialized
  if r.1 then renderBox I entity r.2 config.toShared else []

/-- The function `renderHeadDot(entity, config)`. -/
def renderHeadDot (I : Interfaces) (entity : Entity) (config : Player) : List Event :=
  if config.headDot then
    let r := worldToScreen I (entity.getBonePosition 8) { x := 0, y := 0, z := 0 }
    if r.1 then
      let head := r.2
      [Event.surface (SurfaceCall.setDrawColor config.headDotColor 255),
       Event.getEntity I.getLocalPlayer] ++
      (match I.getEntity I.getLocalPlayer with
        | some localPlayer =>
          [Event.surface (SurfaceCall.drawCircle head.x head.y 0
            (floatToInt (100 / I.sqrtf (I.length (I.vectorSub localPlayer.getAbsOrigin entity.getAbsOrigin)))))]
        | none => [])
    else []
  else []

/-! ## The per-frame scan -/

/-- The function `renderEspForEntity(entity, id)`: the returned `bool` and the calls made. -/
def renderEspForEntity (I : Interfaces) (config : EspConfig) (entity : Entity) (id : EspId) :
    Bool × List Event :=
  if (config.players id).enabled then
    ((config.players id).enabled,
     renderSnaplines I entity (config.players id).toShared ++
     renderEyeTraces I entity (config.players id) ++
     renderPlayerBox I entity (config.players id) ++
     renderHeadDot I entity (config.players id))
  else ((config.players id).enabled, [])

/-- The function `renderWeaponEsp(entity)`. -/
def renderWeaponEsp (I : Interfaces) (config : EspConfig) (entity : Entity) : List Event :=
  if config.weapon.enabled then
    renderWeaponBox I entity config.weapon ++ renderSnaplines I entity config.weapon.toShared
  else []

/-- Where in `Esp::render` an event is produced: before the loops, in the header
and skip filter of one of the two loops at index `i`, or inside the call
`renderEspForEntity(entity, id)` / `renderWeaponEsp(entity)` made at index `i`. -/
inductive Site where
  | prologue
  | playerLoop (i : Int)
  | playerEsp (i : Int) (id : EspId)
  | weaponLoop (i : Int)
  | weaponEsp (i : Int)
deriving DecidableEq

/-- Attach the site to every event of a list. -/
def atSite (s : Site) (es : List Event) : List (Site × Event) := es.map fun e => (s, e)

/-- The values taken by `i` in `for (int i = lo; i <= hi; i++)`, in order. -/
def loopIndices (lo hi : Int) : List Int :=
  (List.range (hi + 1 - lo).toNat).map fun (k : Nat) => lo + (k : Int)

/-- The pointer comparison `entity == localPlayer` (`entity` is not null). -/
def isLocalPlayer (entity : Entity) (localPlayer : Option Entity) : Bool :=
  match localPlayer with
  | some lp => decide (entity.addr = lp.addr)
  | none => false

/-- The call `renderEspForEntity(entity, id)` made at index `i`, with its site. -/
def espCall (I : Interfaces) (config : EspConfig) (i : Int) (entity : Entity) (id : EspId) :
    List (Site × Event) :=
  atSite (Site.playerEsp i id) (renderEspForEntity I config entity id).2

/-- The body of the first loop of `Esp::render` at index `i`, after the lookup
`getEntity(i)`: the skip filter and the classification. -/
def playerBody (I : Interfaces) (config : EspConfig) (localPlayer : Option Entity) (i : Int) :
    List (Site × Event) :=
  match I.getEntity i with
  | none => []
  | some entity =>
    if isLocalPlayer entity localPlayer || entity.isDormant || !entity.isAlive then []
    else if !entity.isEnemy then
      espCall I config i entity EspId.ALLIES_ALL ++
      (if !(renderEspForEntity I config entity EspId.ALLIES_ALL).1 then
        (if entity.isVisible then espCall I config i entity EspId.ALLIES_VISIBLE
         else espCall I config i entity EspId.ALLIES_OCCLUDED)
       else [])
    else
      espCall I config i entity EspId.ENEMIES_ALL ++
      (if !(renderEspForEntity I config entity EspId.ENEMIES_ALL).1 then
        (if entity.isVisible then espCall I config i entity EspId.ENEMIES_VISIBLE
         else espCall I config i entity EspId.ENEMIES_OCCLUDED)
       else [])

/-- One iteration of the first loop of `Esp::render`, at index `i`. -/
def playerIteration (I : Interfaces) (config : EspConfig) (localPlayer : Option Entity) (i : Int) :
    List (Site × Event) :=
  (Site.playerLoop i, Event.getEntity i) :: playerBody I config localPlayer i

/-- The body of the second loop of `Esp::render` at index `i`, after the lookup
`getEntity(i)`. -/
def weaponBody (I : Interfaces) (config : EspConfig) (i : Int) : List (Site × Event) :=
  match I.getEntity i with
  | none => []
  | some entity =>
    if entity.isDormant || !entity.isWeapon || decide (entity.ownerEntity ≠ -1) then []
    else atSite (Site.weaponEsp i) (renderWeaponEsp I config entity)

/-- One iteration of the second loop of `Esp::render`, at index `i`. -/
def weaponIteration (I : Interfaces) (config : EspConfig) (i : Int) : List (Site × Event) :=
  (Site.weaponLoop i, Event.getEntity i) :: weaponBody I config i

/-- The function `Esp::render()`: every entity-table lookup and every surface call of one
frame, in program order, each with the site that produced it. -/
def Esp.render (I : Interfaces) (config : EspConfig) : List (Site × Event) :=
  if I.isInGame then
    let localPlayer := I.getEntity I.getLocalPlayer
    (Site.prologue, Event.getEntity I.getLocalPlayer) ::
    ((loopIndices 1 I.getMaxClients).flatMap (playerIteration I config localPlayer) ++
     (loopIndices (I.getMaxClients + 1) I.getHighestEntityIndex).flatMap (weaponIteration I config))
  else []

/-! ## Reading a frame -/

/-- The entity index a site works on (none before the loops). -/
def Site.index : Site → Option Int
  | Site.prologue => none
  | Site.playerLoop i => some i
  | Site.playerEsp i _ => some i
  | Site.weaponLoop i => some i
  | Site.weaponEsp i => some i

/-- The events of a frame produced while working on entity index `i`. -/
def eventsAt (tr : List (Site × Event)) (i : Int) : List (Site × Event) :=
  tr.filter fun se => decide (se.1.index = some i)

/-- The surface calls of a frame issued for entity index `i`. -/
def drawsAt (tr : List (Site × Event)) (i : Int) : List SurfaceCall :=
  (eventsAt tr i).filterMap fun se =>
    match se.2 with
    | Event.surface c => some c
    | Event.getEntity _ => none

/-- The indices looked up by the header of the first loop, in order. -/
def playerLoopVisits (tr : List (Site × Event)) : List Int :=
  tr.filterMap fun se =>
    match se with
    | (Site.playerLoop _, Event.getEntity j) => some j
    | _ => none

/-- The indices looked up by the header of the second loop, in order. -/
def weaponLoopVisits (tr : List (Site × Event)) : List Int :=
  tr.filterMap fun se =>
    match se with
    | (Site.weaponLoop _, Event.getEntity j) => some j
    | _ => none

/-- Every index given to `getEntity` during a frame, in order. -/
def lookups (tr : List (Site × Event)) : List Int :=
  tr.filterMap fun se =>
    match se.2 with
    | Event.getEntity j => some j
    | Event.surface _ => none

/-- The slot named by the classification rule: the catch-all slot of the
entity's team when that slot is enabled, otherwise the visible or the occluded
slot of the team according to `isVisible()`. -/
def espSlot (config : EspConfig) (entity : Entity) : EspId :=
  if entity.isEnemy then
    if (config.players EspId.ENEMIES_ALL).enabled then EspId.ENEMIES_ALL
    else if entity.isVisible then EspId.ENEMIES_VISIBLE else EspId.ENEMIES_OCCLUDED
  else
    if (config.players EspId.ALLIES_ALL).enabled then EspId.ALLIES_ALL
    else if entity.isVisible then EspId.ALLIES_VISIBLE else EspId.ALLIES_OCCLUDED

/-- Whether a slot belongs to the enemy team. -/
def EspId.isEnemySlot : EspId → Bool
  | EspId.ALLIES_ALL => false
  | EspId.ALLIES_VISIBLE => false
  | EspId.ALLIES_OCCLUDED => false
  | EspId.ENEMIES_ALL => true
  | EspId.ENEMIES_VISIBLE => true
  | EspId.ENEMIES_OCCLUDED => true

/-- The catch-all slot of the team a slot belongs to. -/
def EspId.catchAll : EspId → EspId
  | EspId.ALLIES_ALL => EspId.ALLIES_ALL
  | EspId.ALLIES_VISIBLE => EspId.ALLIES_ALL
  | EspId.ALLIES_OCCLUDED => EspId.ALLIES_ALL
  | EspId.ENEMIES_ALL => EspId.ENEMIES_ALL
  | EspId.ENEMIES_VISIBLE => EspId.ENEMIES_ALL
  | EspId.ENEMIES_OCCLUDED => EspId.ENEMIES_ALL

/-- Whether an entity passes the skip filter of the first loop. -/
def passesPlayerFilter (I : Interfaces) (entity : Entity) : Bool :=
  !(isLocalPlayer entity (I.getEntity I.getLocalPlayer) || entity.isDormant || !entity.isAlive)

/-! ## Quantities named in the statements -/

/-- The corner `i` in world space: `point.transform(entity->coordinateFrame())`. -/
def worldCorner (I : Interfaces) (entity : Entity) (i : Nat) : Vector :=
  I.transform (obbCorner entity i) entity.coordinateFrame

/-- What `worldToScreen` writes for corner `i` when it succeeds. -/
def screenCorner (I : Interfaces) (entity : Entity) (i : Nat) : Vector :=
  (worldToScreen I (worldCorner I entity i) { x := 0, y := 0, z := 0 }).2

/-- The x coordinates of `vertices[0..7]`. -/
def cornerXs (b : BoundingBox) : List ℚ := (List.range 8).map fun i => (b.vertices i).x

/-- The y coordinates of `vertices[0..7]`. -/
def cornerYs (b : BoundingBox) : List ℚ := (List.range 8).map fun i => (b.vertices i).y

/-- The index pairs `(i, i + k)` joined by the loops of box types 2 and 3: the
same loop and the same three tests `!(i & k)` as in `renderBox`. -/
def boxEdges : List (Nat × Nat) :=
  (List.range 8).flatMap fun i =>
    (if i &&& 1 = 0 then [(i, i + 1)] else []) ++
    (if i &&& 2 = 0 then [(i, i + 2)] else []) ++
    (if i &&& 4 = 0 then [(i, i + 4)] else [])

/-- The upper end `y0` of the filled health rectangle, in the closed form
of the specification: `bottom + (top - bottom) * (maxHealth - health) / maxHealth`. -/
def healthBarY0 (I : Interfaces) (entity : Entity) (bbox : BoundingBox) : ℚ :=
  bbox.bottom + (bbox.top - bbox.bottom) * ((maxHealth I entity - entity.health : Int) : ℚ) /
    ((maxHealth I entity : Int) : ℚ)

/-! ## Concrete hosts used to evaluate the definitions -/

/-- A vector with the three given components. -/
def vec (x y z : ℚ) : Vector := { x := x, y := y, z := z }

/-- The view-projection matrix with `w = 1`, `cx = x` and `cy = y` for every point. -/
def unitMatrix : Matrix4x4 := fun i j => if i = j then 1 else 0

/-- An entity at rest: a living ally at the origin with an empty collision box. -/
def plainEntity (addr : Nat) : Entity :=
  { addr := addr, index := addr, isDormant := false, isAlive := true, isEnemy := false,
    isVisible := true, isWeapon := false, ownerEntity := -1, health := 100, armor := 0,
    account := 0, getAbsOrigin := vec 0 0 0, getBonePosition := fun _ => vec 0 0 0,
    eyeAngles := vec 0 0 0, obbMins := vec 0 0 0, obbMaxs := vec 0 0 0,
    coordinateFrame := fun _ _ => 0 }

/-- A host in game with the matrix `unitMatrix`, the given screen size, client
count, highest entity index, local player index and entity table; `transform`
leaves points where they are and the remaining queries return fixed values. -/
def plainHost (size : Int × Int) (maxClients highest localPlayer : Int)
    (table : Int → Option Entity) : Interfaces :=
  { worldToScreenMatrix := unitMatrix, getScreenSize := size, isInGame := true,
    getLocalPlayer := localPlayer, getMaxClients := maxClients,
    getHighestEntityIndex := highest, getEntity := table,
    getPlayerInfo := fun _ => none, multiByteToWideChar := fun s => some s,
    getTextSize := fun _ _ => (0, 0), findVarGetInt := fun _ => 0,
    traceRay := fun a b _ _ => (a, b), transform := fun p _ => p,
    vectorAdd := fun a b => vec (a.x + b.x) (a.y + b.y) (a.z + b.z),
    vectorSub := fun a b => vec (a.x - b.x) (a.y - b.y) (a.z - b.z),
    length := fun _ => 1, sqrtf := fun q => q, cos := fun _ => 1, sin := fun _ => 0,
    degreesToRadians := fun q => q }

/-- An entity whose collision box is the single point `(4, 0, 0)`. -/
def farEntity : Entity :=
  { plainEntity 1 with obbMins := vec 4 0 0, obbMaxs := vec 4 0 0 }

/-- A colour for the examples. -/
def black : Color := { r := 0, g := 0, b := 0 }

/-- Shared settings with every feature switched off. -/
def plainShared : Shared :=
  { enabled := false, snaplines := false, snaplinesColor := black, box := false,
    boxColor := black, boxType := 0, outline := false, outlineColor := black }

/-- Player settings with every feature switched off. -/
def plainPlayer : Player :=
  { toShared := plainShared, font := 0, eyeTraces := false, eyeTracesColor := black,
    healthBar := false, healthBarColor := black, armorBar := false, armorBarColor := black,
    name := false, nameColor := black, health := false, healthColor := black,
    armor := false, armorColor := black, money := false, moneyColor := black,
    headDot := false, headDotColor := black }

/-- A configuration with every slot switched off. -/
def plainConfig : EspConfig :=
  { players := fun _ => plainPlayer, weapon := { toShared := plainShared } }

/-- An entity table with the entity `plainEntity 1` at index 1 and nothing else. -/
def oneEntity : Int → Option Entity := fun i => if i = 1 then some (plainEntity 1) else none

/-- A configuration in which only the slot `ALLIES_VISIBLE` is enabled, with
snaplines. -/
def visibleAlliesConfig : EspConfig :=
  { players := fun id =>
      if id = EspId.ALLIES_VISIBLE then
        { plainPlayer with enabled := true, snaplines := true }
      else plainPlayer
    weapon := { toShared := plainShared } }

/-- An entity table with a dormant entity at index 1 and nothing else. -/
def oneDormant : Int → Option Entity :=
  fun i => if i = 1 then some { plainEntity 1 with isDormant := true } else none

/-! ## `worldToScreen`: results -/

theorem worldToScreen_fst (I : Interfaces) (p out : Vector) :
    (worldToScreen I p out).1 = decide (clipW I.worldToScreenMatrix p > 1 / 1000) := by
  unfold worldToScreen clipW
  by_cases h : I.worldToScreenMatrix 3 0 * p.x + I.worldToScreenMatrix 3 1 * p.y +
      I.worldToScreenMatrix 3 2 * p.z + I.worldToScreenMatrix 3 3 > 1 / 1000
  · simp only [h, if_true, decide_True]
  · simp only [h, if_false, decide_False]

theorem worldToScreen_snd_of_gt (I : Interfaces) (p out : Vector)
    (h : clipW I.worldToScreenMatrix p > 1 / 1000) :
    (worldToScreen I p out).2 =
      { x := ((Int.tdiv I.getScreenSize.1 2 : Int) : ℚ) *
          (1 + clipX I.worldToScreenMatrix p / clipW I.worldToScreenMatrix p)
        y := ((Int.tdiv I.getScreenSize.2 2 : Int) : ℚ) *
          (1 - clipY I.worldToScreenMatrix p / clipW I.worldToScreenMatrix p)
        z := 0 } := by
  unfold clipW at h
  unfold worldToScreen clipW clipX clipY
  simp only [h, if_true]

theorem worldToScreen_snd_of_le (I : Interfaces) (p out : Vector)
    (h : clipW I.worldToScreenMatrix p ≤ 1 / 1000) :
    (worldToScreen I p out).2 = out := by
  have h2 : ¬ (I.worldToScreenMatrix 3 0 * p.x + I.worldToScreenMatrix 3 1 * p.y +
      I.worldToScreenMatrix 3 2 * p.z + I.worldToScreenMatrix 3 3 > 1 / 1000) := by
    unfold clipW at h
    exact not_lt.mpr h
  unfold worldToScreen
  simp only [h2, if_false]

theorem worldToScreen_false_iff (I : Interfaces) (p out : Vector) :
    (worldToScreen I p out).1 = false ↔ clipW I.worldToScreenMatrix p ≤ 1 / 1000 := by
  rw [worldToScreen_fst, decide_eq_false_iff_not, not_lt]

/-- C4: `worldToScreen` returns false exactly when `w <= 0.001`; when it returns
false the output vector is left as it was; and when it returns true `w` is not
zero, so the division by `w` is defined. -/
theorem worldToScreen_fails_iff (I : Interfaces) (p out : Vector) :
    ((worldToScreen I p out).1 = false ↔ clipW I.worldToScreenMatrix p ≤ 1 / 1000) ∧
    ((worldToScreen I p out).1 = false → (worldToScreen I p out).2 = out) ∧
    ((worldToScreen I p out).1 = true → clipW I.worldToScreenMatrix p ≠ 0) := by
  rw [worldToScreen_fst]
  refine ⟨?_, ?_, ?_⟩
  · rw [decide_eq_false_iff_not, not_lt]
  · intro h
    rw [decide_eq_false_iff_not, not_lt] at h
    exact worldToScreen_snd_of_le I p out h
  · intro h
    rw [decide_eq_true_iff] at h
    have : (0 : ℚ) < 1 / 1000 := by norm_num
    exact ne_of_gt (lt_trans this h)

/-- C3 (as amended): for every point with `w > 0.001`, `worldToScreen` returns
true and sets `out` to `((width div 2) * (1 + cx/w), (height div 2) * (1 - cy/w), 0)`
with the truncating integer halves of the screen size; a point with
`cx = cy = 0` is mapped to `(width div 2, height div 2)`; and on a screen at
least two pixels high (`height div 2 > 0`), a point with the same `w` and a
larger `cy` gets a smaller `out.y`. -/
theorem worldToScreen_projects (I : Interfaces) (p out : Vector)
    (hw : clipW I.worldToScreenMatrix p > 1 / 1000) :
    (worldToScreen I p out).1 = true ∧
    (worldToScreen I p out).2 =
      { x := ((Int.tdiv I.getScreenSize.1 2 : Int) : ℚ) *
          (1 + clipX I.worldToScreenMatrix p / clipW I.worldToScreenMatrix p)
        y := ((Int.tdiv I.getScreenSize.2 2 : Int) : ℚ) *
          (1 - clipY I.worldToScreenMatrix p / clipW I.worldToScreenMatrix p)
        z := 0 } ∧
    (clipX I.worldToScreenMatrix p = 0 → clipY I.worldToScreenMatrix p = 0 →
      (worldToScreen I p out).2 =
        { x := ((Int.tdiv I.getScreenSize.1 2 : Int) : ℚ)
          y := ((Int.tdiv I.getScreenSize.2 2 : Int) : ℚ)
          z := 0 }) ∧
    (∀ q out2 : Vector, 2 ≤ I.getScreenSize.2 →
      clipW I.worldToScreenMatrix q = clipW I.worldToScreenMatrix p →
      clipY I.worldToScreenMatrix p < clipY I.worldToScreenMatrix q →
      (worldToScreen I q out2).2.y < (worldToScreen I p out).2.y) := by
  have hpos : (0 : ℚ) < clipW I.worldToScreenMatrix p :=
    lt_trans (by norm_num) hw
  refine ⟨?_, worldToScreen_snd_of_gt I p out hw, ?_, ?_⟩
  · rw [worldToScreen_fst, decide_eq_true_iff]
    exact hw
  · intro hx hy
    rw [worldToScreen_snd_of_gt I p out hw, hx, hy]
    simp
  · intro q out2 hh hwq hlt
    have hq : clipW I.worldToScreenMatrix q > 1 / 1000 := by rw [hwq]; exact hw
    rw [worldToScreen_snd_of_gt I p out hw, worldToScreen_snd_of_gt I q out2 hq, hwq]
    have hhalf : (0 : ℚ) < ((Int.tdiv I.getScreenSize.2 2 : Int) : ℚ) := by
      have : (0 : Int) < Int.tdiv I.getScreenSize.2 2 := by
        have h0 : (0 : Int) ≤ I.getScreenSize.2 := by omega
        rw [Int.tdiv_eq_ediv h0 (by norm_num)]
        omega
      exact_mod_cast this
    have hdiv : clipY I.worldToScreenMatrix p / clipW I.worldToScreenMatrix p <
        clipY I.worldToScreenMatrix q / clipW I.worldToScreenMatrix p :=
      div_lt_div_of_pos_right hlt hpos
    show ((Int.tdiv I.getScreenSize.2 2 : Int) : ℚ) *
        (1 - clipY I.worldToScreenMatrix q / clipW I.worldToScreenMatrix p) <
      ((Int.tdiv I.getScreenSize.2 2 : Int) : ℚ) *
        (1 - clipY I.worldToScreenMatrix p / clipW I.worldToScreenMatrix p)
    exact mul_lt_mul_of_pos_left (by linarith) hhalf

/-- Witness of C3: on an 800 x 600 screen the point `(1, 2, 0)` has `w = 1` and is
projected by the formula. -/
theorem worldToScreen_projects_witness :
    clipW (plainHost (800, 600) 0 0 0 fun _ => none).worldToScreenMatrix (vec 1 2 0) > 1 / 1000 ∧
    (worldToScreen (plainHost (800, 600) 0 0 0 fun _ => none) (vec 1 2 0) (vec 0 0 0)).1 = true :=
  ⟨by simp [plainHost, clipW, unitMatrix, vec]; norm_num,
   (worldToScreen_projects (plainHost (800, 600) 0 0 0 fun _ => none) (vec 1 2 0) (vec 0 0 0)
      (by simp [plainHost, clipW, unitMatrix, vec]; norm_num)).1⟩

/-- Counterexample to C3 as stated: on a screen one pixel high the points
`(0, 0, 0)` and `(0, 1, 0)` have the same `w = 1` and `cy = 0 < 1`, and both are
projected to `out.y = 0`: increasing `cy` did not decrease `out.y`. -/
theorem worldToScreen_cy_counterexample :
    clipW (plainHost (800, 1) 0 0 0 fun _ => none).worldToScreenMatrix (vec 0 0 0) = 1 ∧
    clipW (plainHost (800, 1) 0 0 0 fun _ => none).worldToScreenMatrix (vec 0 1 0) = 1 ∧
    clipY (plainHost (800, 1) 0 0 0 fun _ => none).worldToScreenMatrix (vec 0 0 0) = 0 ∧
    clipY (plainHost (800, 1) 0 0 0 fun _ => none).worldToScreenMatrix (vec 0 1 0) = 1 ∧
    (worldToScreen (plainHost (800, 1) 0 0 0 fun _ => none) (vec 0 0 0) (vec 0 0 0)).1 = true ∧
    (worldToScreen (plainHost (800, 1) 0 0 0 fun _ => none) (vec 0 1 0) (vec 0 0 0)).1 = true ∧
    (worldToScreen (plainHost (800, 1) 0 0 0 fun _ => none) (vec 0 0 0) (vec 0 0 0)).2.y = 0 ∧
    (worldToScreen (plainHost (800, 1) 0 0 0 fun _ => none) (vec 0 1 0) (vec 0 0 0)).2.y = 0 ∧
    ¬ ((worldToScreen (plainHost (800, 1) 0 0 0 fun _ => none) (vec 0 1 0) (vec 0 0 0)).2.y <
       (worldToScreen (plainHost (800, 1) 0 0 0 fun _ => none) (vec 0 0 0) (vec 0 0 0)).2.y) := by
  have h12 : Int.tdiv 1 2 = 0 := by decide
  refine ⟨?_, ?_, ?_, ?_, ?_, ?_, ?_, ?_, ?_⟩ <;>
    simp [plainHost, clipW, clipY, unitMatrix, vec, worldToScreen, h12] <;> norm_num

/-! ## `boundingBox`: the loop -/

theorem worldToScreen_snd_indep (I : Interfaces) (p a b : Vector)
    (h : (worldToScreen I p a).1 = true) :
    (worldToScreen I p a).2 = (worldToScreen I p b).2 := by
  rw [worldToScreen_fst, decide_eq_true_iff] at h
  rw [worldToScreen_snd_of_gt I p a h, worldToScreen_snd_of_gt I p b h]

theorem boundingBoxLoop_fail (I : Interfaces) (entity : Entity) (n i : Nat) (out : BoundingBox)
    (h : (worldToScreen I (worldCorner I entity i) (out.vertices i)).1 = false) :
    (boundingBoxLoop I entity (n + 1) i out).1 = false := by
  unfold worldCorner at h
  simp only [boundingBoxLoop, h, Bool.not_false, if_true]

theorem boundingBoxLoop_step (I : Interfaces) (entity : Entity) (n i : Nat) (out : BoundingBox)
    (h : (worldToScreen I (worldCorner I entity i) (out.vertices i)).1 = true) :
    boundingBoxLoop I entity (n + 1) i out =
      boundingBoxLoop I entity n (i + 1)
        { left := min out.left (screenCorner I entity i).x
          right := max out.right (screenCorner I entity i).x
          top := max out.top (screenCorner I entity i).y
          bottom := min out.bottom (screenCorner I entity i).y
          vertices := Function.update out.vertices i (screenCorner I entity i) } := by
  have hv : (worldToScreen I (worldCorner I entity i) (out.vertices i)).2 = screenCorner I entity i :=
    worldToScreen_snd_indep I _ _ _ h
  unfold worldCorner at h hv
  rw [boundingBoxLoop]
  simp only [h, hv, Bool.not_true, Function.update_same]
  rw [if_neg (by simp)]
  congr 1
  by_cases h1 : out.left > (screenCorner I entity i).x <;>
  by_cases h2 : out.right < (screenCorner I entity i).x <;>
  by_cases h3 : out.top < (screenCorner I entity i).y <;>
  by_cases h4 : out.bottom > (screenCorner I entity i).y <;>
  simp only [h1, h2, h3, h4, if_true, if_false, Function.update_same] <;>
  simp only [not_lt, gt_iff_lt] at h1 h2 h3 h4 <;>
  simp [h1, h2, h3, h4, min_eq_left, min_eq_right, max_eq_left, max_eq_right, le_of_lt]

theorem foldl_min_le_init (l : List ℚ) (a : ℚ) : l.foldl min a ≤ a := by
  induction l generalizing a with
  | nil => exact le_refl a
  | cons b t ih => exact le_trans (ih (min a b)) (min_le_left a b)

theorem foldl_min_le_of_mem (l : List ℚ) (a x : ℚ) (hx : x ∈ l) : l.foldl min a ≤ x := by
  induction l generalizing a with
  | nil => cases hx
  | cons b t ih =>
    rcases List.mem_cons.mp hx with h | h
    · subst h
      exact le_trans (foldl_min_le_init t (min a x)) (min_le_right a x)
    · exact ih (min a b) h

theorem foldl_min_eq_or_mem (l : List ℚ) (a : ℚ) : l.foldl min a = a ∨ l.foldl min a ∈ l := by
  induction l generalizing a with
  | nil => exact Or.inl rfl
  | cons b t ih =>
    rcases ih (min a b) with h | h
    · rcases min_choice a b with hm | hm
      · left
        show List.foldl min (min a b) t = a
        rw [h, hm]
      · right
        show List.foldl min (min a b) t ∈ b :: t
        rw [h, hm]
        exact List.mem_cons_self b t
    · right
      exact List.mem_cons_of_mem b h

theorem foldl_max_ge_init (l : List ℚ) (a : ℚ) : a ≤ l.foldl max a := by
  induction l generalizing a with
  | nil => exact le_refl a
  | cons b t ih => exact le_trans (le_max_left a b) (ih (max a b))

theorem foldl_max_ge_of_mem (l : List ℚ) (a x : ℚ) (hx : x ∈ l) : x ≤ l.foldl max a := by
  induction l generalizing a with
  | nil => cases hx
  | cons b t ih =>
    rcases List.mem_cons.mp hx with h | h
    · subst h
      exact le_trans (le_max_right a x) (foldl_max_ge_init t (max a x))
    · exact ih (max a b) h

theorem foldl_max_eq_or_mem (l : List ℚ) (a : ℚ) : l.foldl max a = a ∨ l.foldl max a ∈ l := by
  induction l generalizing a with
  | nil => exact Or.inl rfl
  | cons b t ih =>
    rcases ih (max a b) with h | h
    · rcases max_choice a b with hm | hm
      · left
        show List.foldl max (max a b) t = a
        rw [h, hm]
      · right
        show List.foldl max (max a b) t ∈ b :: t
        rw [h, hm]
        exact List.mem_cons_self b t
    · right
      exact List.mem_cons_of_mem b h

theorem range_succ_map_shift {β : Type} (f : Nat → β) (n i : Nat) :
    (List.range (n + 1)).map (fun k => f (i + k)) =
      f i :: (List.range n).map (fun k => f (i + 1 + k)) := by
  rw [List.range_succ_eq_map, List.map_cons, List.map_map]
  congr 1
  apply List.map_congr_left
  intro k _
  show f (i + (k + 1)) = f (i + 1 + k)
  congr 1
  omega

theorem boundingBoxLoop_spec (I : Interfaces) (entity : Entity) :
    ∀ (n i : Nat) (out : BoundingBox),
      ((boundingBoxLoop I entity n i out).1 = true ↔
        ∀ k, k < n → clipW I.worldToScreenMatrix (worldCorner I entity (i + k)) > 1 / 1000) ∧
      ((boundingBoxLoop I entity n i out).1 = true →
        (∀ j, j < i → (boundingBoxLoop I entity n i out).2.vertices j = out.vertices j) ∧
        (∀ k, k < n →
          (boundingBoxLoop I entity n i out).2.vertices (i + k) = screenCorner I entity (i + k)) ∧
        (boundingBoxLoop I entity n i out).2.left =
          ((List.range n).map fun k => (screenCorner I entity (i + k)).x).foldl min out.left ∧
        (boundingBoxLoop I entity n i out).2.right =
          ((List.range n).map fun k => (screenCorner I entity (i + k)).x).foldl max out.right ∧
        (boundingBoxLoop I entity n i out).2.top =
          ((List.range n).map fun k => (screenCorner I entity (i + k)).y).foldl max out.top ∧
        (boundingBoxLoop I entity n i out).2.bottom =
          ((List.range n).map fun k => (screenCorner I entity (i + k)).y).foldl min out.bottom) := by
  intro n
  induction n with
  | zero =>
    intro i out
    refine ⟨?_, ?_⟩
    · simp [boundingBoxLoop]
    · intro _
      simp [boundingBoxLoop]
  | succ n ih =>
    intro i out
    cases h : (worldToScreen I (worldCorner I entity i) (out.vertices i)).1 with
    | false =>
      have hf := boundingBoxLoop_fail I entity n i out h
      refine ⟨?_, ?_⟩
      · rw [hf]
        constructor
        · intro hc; cases hc
        · intro hall
          have h0 := hall 0 (Nat.succ_pos n)
          rw [worldToScreen_fst, decide_eq_false_iff_not] at h
          exact absurd h0 h
      · intro hc
        rw [hf] at hc
        cases hc
    | true =>
      rw [boundingBoxLoop_step I entity n i out h]
      obtain ⟨ihiff, ihok⟩ := ih (i + 1)
        { left := min out.left (screenCorner I entity i).x
          right := max out.right (screenCorner I entity i).x
          top := max out.top (screenCorner I entity i).y
          bottom := min out.bottom (screenCorner I entity i).y
          vertices := Function.update out.vertices i (screenCorner I entity i) }
      have hgt : clipW I.worldToScreenMatrix (worldCorner I entity i) > 1 / 1000 := by
        rw [worldToScreen_fst, decide_eq_true_iff] at h
        exact h
      refine ⟨?_, ?_⟩
      · rw [ihiff]
        constructor
        · intro hall k hk
          rcases Nat.eq_zero_or_pos k with hk0 | hk0
          · subst hk0
            exact hgt
          · have := hall (k - 1) (by omega)
            have e : i + 1 + (k - 1) = i + k := by omega
            rw [e] at this
            exact this
        · intro hall k hk
          have := hall (k + 1) (by omega)
          have e : i + (k + 1) = i + 1 + k := by omega
          rw [e] at this
          exact this
      · intro hc
        obtain ⟨hlow, hv, hl, hr, ht, hb⟩ := ihok hc
        refine ⟨?_, ?_, ?_, ?_, ?_, ?_⟩
        · intro j hj
          rw [hlow j (by omega)]
          exact Function.update_noteq (by omega) _ _
        · intro k hk
          rcases Nat.eq_zero_or_pos k with hk0 | hk0
          · subst hk0
            have := hlow i (by omega)
            simp only [Function.update_same] at this
            exact this
          · have := hv (k - 1) (by omega)
            have e : i + 1 + (k - 1) = i + k := by omega
            rw [e] at this
            exact this
        · rw [hl, range_succ_map_shift (fun j => (screenCorner I entity j).x) n i]
          rfl
        · rw [hr, range_succ_map_shift (fun j => (screenCorner I entity j).x) n i]
          rfl
        · rw [ht, range_succ_map_shift (fun j => (screenCorner I entity j).y) n i]
          rfl
        · rw [hb, range_succ_map_shift (fun j => (screenCorner I entity j).y) n i]
          rfl

/-! ## `boundingBox`: results -/

theorem boundingBox_spec (I : Interfaces) (entity : Entity) (out : BoundingBox) :
    ((boundingBox I entity out).1 = true ↔
      ∀ k, k < 8 → clipW I.worldToScreenMatrix (worldCorner I entity k) > 1 / 1000) ∧
    ((boundingBox I entity out).1 = true →
      (∀ k, k < 8 → (boundingBox I entity out).2.vertices k = screenCorner I entity k) ∧
      (boundingBox I entity out).2.left =
        (cornerXs (boundingBox I entity out).2).foldl min ((I.getScreenSize.1 * 2 : Int) : ℚ) ∧
      (boundingBox I entity out).2.right =
        (cornerXs (boundingBox I entity out).2).foldl max (-((I.getScreenSize.1 * 2 : Int) : ℚ)) ∧
      (boundingBox I entity out).2.top =
        (cornerYs (boundingBox I entity out).2).foldl max (-((I.getScreenSize.2 * 2 : Int) : ℚ)) ∧
      (boundingBox I entity out).2.bottom =
        (cornerYs (boundingBox I entity out).2).foldl min ((I.getScreenSize.2 * 2 : Int) : ℚ)) := by
  obtain ⟨hiff, hok⟩ := boundingBoxLoop_spec I entity 8 0
    { left := ((I.getScreenSize.1 * 2 : Int) : ℚ)
      right := -((I.getScreenSize.1 * 2 : Int) : ℚ)
      top := -((I.getScreenSize.2 * 2 : Int) : ℚ)
      bottom := ((I.getScreenSize.2 * 2 : Int) : ℚ)
      vertices := out.vertices }
  simp only [Nat.zero_add] at hiff hok
  have hbb : boundingBox I entity out = boundingBoxLoop I entity 8 0
      { left := ((I.getScreenSize.1 * 2 : Int) : ℚ)
        right := -((I.getScreenSize.1 * 2 : Int) : ℚ)
        top := -((I.getScreenSize.2 * 2 : Int) : ℚ)
        bottom := ((I.getScreenSize.2 * 2 : Int) : ℚ)
        vertices := out.vertices } := rfl
  rw [hbb]
  refine ⟨hiff, ?_⟩
  intro h
  obtain ⟨_, hv, hl, hr, ht, hb⟩ := hok h
  have hxs : cornerXs (boundingBoxLoop I entity 8 0
      { left := ((I.getScreenSize.1 * 2 : Int) : ℚ)
        right := -((I.getScreenSize.1 * 2 : Int) : ℚ)
        top := -((I.getScreenSize.2 * 2 : Int) : ℚ)
        bottom := ((I.getScreenSize.2 * 2 : Int) : ℚ)
        vertices := out.vertices }).2 =
      (List.range 8).map fun k => (screenCorner I entity k).x := by
    unfold cornerXs
    apply List.map_congr_left
    intro k hk
    rw [hv k (List.mem_range.mp hk)]
  have hys : cornerYs (boundingBoxLoop I entity 8 0
      { left := ((I.getScreenSize.1 * 2 : Int) : ℚ)
        right := -((I.getScreenSize.1 * 2 : Int) : ℚ)
        top := -((I.getScreenSize.2 * 2 : Int) : ℚ)
        bottom := ((I.getScreenSize.2 * 2 : Int) : ℚ)
        vertices := out.vertices }).2 =
      (List.range 8).map fun k => (screenCorner I entity k).y := by
    unfold cornerYs
    apply List.map_congr_left
    intro k hk
    rw [hv k (List.mem_range.mp hk)]
  rw [hxs, hys]
  exact ⟨hv, hl, hr, ht, hb⟩

theorem mem_cornerXs (b : BoundingBox) (i : Nat) (hi : i < 8) : (b.vertices i).x ∈ cornerXs b :=
  List.mem_map.mpr ⟨i, List.mem_range.mpr hi, rfl⟩

theorem mem_cornerYs (b : BoundingBox) (i : Nat) (hi : i < 8) : (b.vertices i).y ∈ cornerYs b :=
  List.mem_map.mpr ⟨i, List.mem_range.mpr hi, rfl⟩

theorem of_mem_cornerXs (b : BoundingBox) (q : ℚ) (h : q ∈ cornerXs b) :
    ∃ i, i < 8 ∧ q = (b.vertices i).x := by
  obtain ⟨i, hi, e⟩ := List.mem_map.mp h
  exact ⟨i, List.mem_range.mp hi, e.symm⟩

theorem of_mem_cornerYs (b : BoundingBox) (q : ℚ) (h : q ∈ cornerYs b) :
    ∃ i, i < 8 ∧ q = (b.vertices i).y := by
  obtain ⟨i, hi, e⟩ := List.mem_map.mp h
  exact ⟨i, List.mem_range.mp hi, e.symm⟩

theorem boundingBox_bottom_le_top (I : Interfaces) (entity : Entity) (out : BoundingBox)
    (h : (boundingBox I entity out).1 = true) :
    (boundingBox I entity out).2.bottom ≤ (boundingBox I entity out).2.top := by
  obtain ⟨_, _, _, ht, hb⟩ := (boundingBox_spec I entity out).2 h
  have h0 := mem_cornerYs (boundingBox I entity out).2 0 (by norm_num)
  calc (boundingBox I entity out).2.bottom
      ≤ ((boundingBox I entity out).2.vertices 0).y := by
        rw [hb]; exact foldl_min_le_of_mem _ _ _ h0
    _ ≤ (boundingBox I entity out).2.top := by
        rw [ht]; exact foldl_max_ge_of_mem _ _ _ h0

/-- C8: whenever `boundingBox` returns true, every projected corner lies inside
the rectangle (`left <= x <= right`, `bottom <= y <= top`), the rectangle is
well-ordered, and the absolute values taken by the box and bar drawing are the
plain differences `right - left` and `top - bottom`. -/
theorem boundingBox_encloses (I : Interfaces) (entity : Entity) (out : BoundingBox)
    (h : (boundingBox I entity out).1 = true) :
    (∀ i, i < 8 →
      (boundingBox I entity out).2.left ≤ ((boundingBox I entity out).2.vertices i).x ∧
      ((boundingBox I entity out).2.vertices i).x ≤ (boundingBox I entity out).2.right ∧
      (boundingBox I entity out).2.bottom ≤ ((boundingBox I entity out).2.vertices i).y ∧
      ((boundingBox I entity out).2.vertices i).y ≤ (boundingBox I entity out).2.top) ∧
    (boundingBox I entity out).2.left ≤ (boundingBox I entity out).2.right ∧
    (boundingBox I entity out).2.bottom ≤ (boundingBox I entity out).2.top ∧
    |(boundingBox I entity out).2.right - (boundingBox I entity out).2.left| =
      (boundingBox I entity out).2.right - (boundingBox I entity out).2.left ∧
    |(boundingBox I entity out).2.top - (boundingBox I entity out).2.bottom| =
      (boundingBox I entity out).2.top - (boundingBox I entity out).2.bottom := by
  obtain ⟨_, hl, hr, ht, hb⟩ := (boundingBox_spec I entity out).2 h
  have hall : ∀ i, i < 8 →
      (boundingBox I entity out).2.left ≤ ((boundingBox I entity out).2.vertices i).x ∧
      ((boundingBox I entity out).2.vertices i).x ≤ (boundingBox I entity out).2.right ∧
      (boundingBox I entity out).2.bottom ≤ ((boundingBox I entity out).2.vertices i).y ∧
      ((boundingBox I entity out).2.vertices i).y ≤ (boundingBox I entity out).2.top := by
    intro i hi
    refine ⟨?_, ?_, ?_, ?_⟩
    · rw [hl]; exact foldl_min_le_of_mem _ _ _ (mem_cornerXs _ i hi)
    · rw [hr]; exact foldl_max_ge_of_mem _ _ _ (mem_cornerXs _ i hi)
    · rw [hb]; exact foldl_min_le_of_mem _ _ _ (mem_cornerYs _ i hi)
    · rw [ht]; exact foldl_max_ge_of_mem _ _ _ (mem_cornerYs _ i hi)
  obtain ⟨h1, h2, h3, h4⟩ := hall 0 (by norm_num)
  have hlr := le_trans h1 h2
  have hbt := le_trans h3 h4
  exact ⟨hall, hlr, hbt, abs_of_nonneg (sub_nonneg.mpr hlr), abs_of_nonneg (sub_nonneg.mpr hbt)⟩

theorem farEntity_boundingBox_ok :
    (boundingBox (plainHost (100, 100) 1 1 0 fun _ => none) farEntity
      BoundingBox.uninitialized).1 = true := by
  rw [(boundingBox_spec _ _ _).1]
  intro k _
  simp [plainHost, clipW, unitMatrix]
  norm_num

theorem farEntity_screenCorner (k : Nat) :
    screenCorner (plainHost (100, 100) 1 1 0 fun _ => none) farEntity k = vec 250 50 0 := by
  have h50 : Int.tdiv 100 2 = 50 := by decide
  simp [screenCorner, worldCorner, worldToScreen, plainHost, farEntity, plainEntity, obbCorner,
    unitMatrix, vec, h50]
  norm_num

/-- Witness of C8 on a 100 x 100 screen. -/
theorem boundingBox_encloses_witness :
    (boundingBox (plainHost (100, 100) 1 1 0 fun _ => none) farEntity
      BoundingBox.uninitialized).1 = true ∧
    (boundingBox (plainHost (100, 100) 1 1 0 fun _ => none) farEntity
      BoundingBox.uninitialized).2.left ≤
    (boundingBox (plainHost (100, 100) 1 1 0 fun _ => none) farEntity
      BoundingBox.uninitialized).2.right :=
  ⟨farEntity_boundingBox_ok,
   (boundingBox_encloses (plainHost (100, 100) 1 1 0 fun _ => none) farEntity
      BoundingBox.uninitialized farEntity_boundingBox_ok).2.1⟩

/-- C6 (as amended): when `boundingBox` returns true, `out.left` is the least of
`2 * width` and the eight corner x coordinates, `out.right` the greatest of
`-2 * width` and the eight x, `out.bottom` the least of `2 * height` and the
eight y, `out.top` the greatest of `-2 * height` and the eight y.  Hence each
bound is the minimum (maximum) of the eight corners as soon as one corner lies
on the inner side of the starting value. -/
theorem boundingBox_extents (I : Interfaces) (entity : Entity) (out : BoundingBox)
    (h : (boundingBox I entity out).1 = true) :
    (boundingBox I entity out).2.left =
      (cornerXs (boundingBox I entity out).2).foldl min ((I.getScreenSize.1 * 2 : Int) : ℚ) ∧
    (boundingBox I entity out).2.right =
      (cornerXs (boundingBox I entity out).2).foldl max (-((I.getScreenSize.1 * 2 : Int) : ℚ)) ∧
    (boundingBox I entity out).2.bottom =
      (cornerYs (boundingBox I entity out).2).foldl min ((I.getScreenSize.2 * 2 : Int) : ℚ) ∧
    (boundingBox I entity out).2.top =
      (cornerYs (boundingBox I entity out).2).foldl max (-((I.getScreenSize.2 * 2 : Int) : ℚ)) ∧
    ((∃ i, i < 8 ∧ ((boundingBox I entity out).2.vertices i).x ≤ ((I.getScreenSize.1 * 2 : Int) : ℚ)) →
      (∀ i, i < 8 → (boundingBox I entity out).2.left ≤ ((boundingBox I entity out).2.vertices i).x) ∧
      ∃ i, i < 8 ∧ (boundingBox I entity out).2.left = ((boundingBox I entity out).2.vertices i).x) ∧
    ((∃ i, i < 8 ∧ -((I.getScreenSize.1 * 2 : Int) : ℚ) ≤ ((boundingBox I entity out).2.vertices i).x) →
      (∀ i, i < 8 → ((boundingBox I entity out).2.vertices i).x ≤ (boundingBox I entity out).2.right) ∧
      ∃ i, i < 8 ∧ (boundingBox I entity out).2.right = ((boundingBox I entity out).2.vertices i).x) ∧
    ((∃ i, i < 8 ∧ ((boundingBox I entity out).2.vertices i).y ≤ ((I.getScreenSize.2 * 2 : Int) : ℚ)) →
      (∀ i, i < 8 → (boundingBox I entity out).2.bottom ≤ ((boundingBox I entity out).2.vertices i).y) ∧
      ∃ i, i < 8 ∧ (boundingBox I entity out).2.bottom = ((boundingBox I entity out).2.vertices i).y) ∧
    ((∃ i, i < 8 ∧ -((I.getScreenSize.2 * 2 : Int) : ℚ) ≤ ((boundingBox I entity out).2.vertices i).y) →
      (∀ i, i < 8 → ((boundingBox I entity out).2.vertices i).y ≤ (boundingBox I entity out).2.top) ∧
      ∃ i, i < 8 ∧ (boundingBox I entity out).2.top = ((boundingBox I entity out).2.vertices i).y) := by
  obtain ⟨_, hl, hr, ht, hb⟩ := (boundingBox_spec I entity out).2 h
  refine ⟨hl, hr, hb, ht, ?_, ?_, ?_, ?_⟩
  · rintro ⟨i, hi, hle⟩
    refine ⟨fun j hj => ?_, ?_⟩
    · rw [hl]; exact foldl_min_le_of_mem _ _ _ (mem_cornerXs _ j hj)
    · rcases foldl_min_eq_or_mem (cornerXs (boundingBox I entity out).2)
        ((I.getScreenSize.1 * 2 : Int) : ℚ) with e | e
      · refine ⟨i, hi, le_antisymm ?_ ?_⟩
        · rw [hl]; exact foldl_min_le_of_mem _ _ _ (mem_cornerXs _ i hi)
        · rw [hl, e]; exact hle
      · rw [← hl] at e
        exact of_mem_cornerXs _ _ e
  · rintro ⟨i, hi, hle⟩
    refine ⟨fun j hj => ?_, ?_⟩
    · rw [hr]; exact foldl_max_ge_of_mem _ _ _ (mem_cornerXs _ j hj)
    · rcases foldl_max_eq_or_mem (cornerXs (boundingBox I entity out).2)
        (-((I.getScreenSize.1 * 2 : Int) : ℚ)) with e | e
      · refine ⟨i, hi, le_antisymm ?_ ?_⟩
        · rw [hr, e]; exact hle
        · rw [hr]; exact foldl_max_ge_of_mem _ _ _ (mem_cornerXs _ i hi)
      · rw [← hr] at e
        exact of_mem_cornerXs _ _ e
  · rintro ⟨i, hi, hle⟩
    refine ⟨fun j hj => ?_, ?_⟩
    · rw [hb]; exact foldl_min_le_of_mem _ _ _ (mem_cornerYs _ j hj)
    · rcases foldl_min_eq_or_mem (cornerYs (boundingBox I entity out).2)
        ((I.getScreenSize.2 * 2 : Int) : ℚ) with e | e
      · refine ⟨i, hi, le_antisymm ?_ ?_⟩
        · rw [hb]; exact foldl_min_le_of_mem _ _ _ (mem_cornerYs _ i hi)
        · rw [hb, e]; exact hle
      · rw [← hb] at e
        exact of_mem_cornerYs _ _ e
  · rintro ⟨i, hi, hle⟩
    refine ⟨fun j hj => ?_, ?_⟩
    · rw [ht]; exact foldl_max_ge_of_mem _ _ _ (mem_cornerYs _ j hj)
    · rcases foldl_max_eq_or_mem (cornerYs (boundingBox I entity out).2)
        (-((I.getScreenSize.2 * 2 : Int) : ℚ)) with e | e
      · refine ⟨i, hi, le_antisymm ?_ ?_⟩
        · rw [ht, e]; exact hle
        · rw [ht]; exact foldl_max_ge_of_mem _ _ _ (mem_cornerYs _ i hi)
      · rw [← ht] at e
        exact of_mem_cornerYs _ _ e

/-- Witness of C6 (as amended) on a 100 x 100 screen. -/
theorem boundingBox_extents_witness :
    (boundingBox (plainHost (100, 100) 1 1 0 fun _ => none) farEntity
      BoundingBox.uninitialized).1 = true ∧
    (boundingBox (plainHost (100, 100) 1 1 0 fun _ => none) farEntity
      BoundingBox.uninitialized).2.left =
    (cornerXs (boundingBox (plainHost (100, 100) 1 1 0 fun _ => none) farEntity
      BoundingBox.uninitialized).2).foldl min
      (((plainHost (100, 100) 1 1 0 fun _ => none).getScreenSize.1 * 2 : Int) : ℚ) :=
  ⟨farEntity_boundingBox_ok,
   (boundingBox_extents (plainHost (100, 100) 1 1 0 fun _ => none) farEntity
      BoundingBox.uninitialized farEntity_boundingBox_ok).1⟩

/-- Counterexample to C6 as stated: on a 100 x 100 screen, for an entity whose
eight corners are all projected to `x = 250`, `boundingBox` returns true with
`out.left = 200 = 2 * width`, which is not the x coordinate of any corner, so
not their minimum `250`. -/
theorem boundingBox_left_counterexample :
    (boundingBox (plainHost (100, 100) 1 1 0 fun _ => none) farEntity
      BoundingBox.uninitialized).1 = true ∧
    (∀ i, i < 8 →
      ((boundingBox (plainHost (100, 100) 1 1 0 fun _ => none) farEntity
        BoundingBox.uninitialized).2.vertices i).x = 250) ∧
    (boundingBox (plainHost (100, 100) 1 1 0 fun _ => none) farEntity
      BoundingBox.uninitialized).2.left = 200 ∧
    ¬ (∃ i, i < 8 ∧
      (boundingBox (plainHost (100, 100) 1 1 0 fun _ => none) farEntity
        BoundingBox.uninitialized).2.left =
      ((boundingBox (plainHost (100, 100) 1 1 0 fun _ => none) farEntity
        BoundingBox.uninitialized).2.vertices i).x) := by
  suffices hmain :
      (boundingBox (plainHost (100, 100) 1 1 0 fun _ => none) farEntity
        BoundingBox.uninitialized).1 = true ∧
      (∀ i, i < 8 →
        ((boundingBox (plainHost (100, 100) 1 1 0 fun _ => none) farEntity
          BoundingBox.uninitialized).2.vertices i).x = 250) ∧
      (boundingBox (plainHost (100, 100) 1 1 0 fun _ => none) farEntity
        BoundingBox.uninitialized).2.left = 200 by
    obtain ⟨h1, h2, h3⟩ := hmain
    refine ⟨h1, h2, h3, ?_⟩
    rintro ⟨i, hi, e⟩
    rw [h3, h2 i hi] at e
    norm_num at e
  obtain ⟨hv, hl, _, _, _⟩ := (boundingBox_spec _ _ _).2 farEntity_boundingBox_ok
  have hx : ∀ i, i < 8 →
      ((boundingBox (plainHost (100, 100) 1 1 0 fun _ => none) farEntity
        BoundingBox.uninitialized).2.vertices i).x = 250 := by
    intro i hi
    rw [hv i hi, farEntity_screenCorner]
    rfl
  refine ⟨farEntity_boundingBox_ok, hx, ?_⟩
  have h200 : (((plainHost (100, 100) 1 1 0 fun _ => none).getScreenSize.1 * 2 : Int) : ℚ) = 200 := by
    simp [plainHost]
  rw [h200] at hl
  rcases foldl_min_eq_or_mem (cornerXs (boundingBox (plainHost (100, 100) 1 1 0 fun _ => none)
      farEntity BoundingBox.uninitialized).2) 200 with e | e
  · rw [hl, e]
  · rw [← hl] at e
    obtain ⟨i, hi, e2⟩ := of_mem_cornerXs _ _ e
    rw [hx i hi] at e2
    have := foldl_min_le_init (cornerXs (boundingBox (plainHost (100, 100) 1 1 0 fun _ => none)
      farEntity BoundingBox.uninitialized).2) 200
    rw [← hl, e2] at this
    norm_num at this

theorem obbCorner_covers (entity : Entity) (bx bY bz : Bool) :
    ∃ i, i < 8 ∧ obbCorner entity i =
      { x := if bx then entity.obbMaxs.x else entity.obbMins.x
        y := if bY then entity.obbMaxs.y else entity.obbMins.y
        z := if bz then entity.obbMaxs.z else entity.obbMins.z } := by
  cases bx <;> cases bY <;> cases bz
  · exact ⟨0, by norm_num, by simp +decide [obbCorner]⟩
  · exact ⟨4, by norm_num, by simp +decide [obbCorner]⟩
  · exact ⟨2, by norm_num, by simp +decide [obbCorner]⟩
  · exact ⟨6, by norm_num, by simp +decide [obbCorner]⟩
  · exact ⟨1, by norm_num, by simp +decide [obbCorner]⟩
  · exact ⟨5, by norm_num, by simp +decide [obbCorner]⟩
  · exact ⟨3, by norm_num, by simp +decide [obbCorner]⟩
  · exact ⟨7, by norm_num, by simp +decide [obbCorner]⟩

theorem boundingBox_false_iff (I : Interfaces) (entity : Entity) (out : BoundingBox) :
    (boundingBox I entity out).1 = false ↔
      ∃ i, i < 8 ∧ clipW I.worldToScreenMatrix (worldCorner I entity i) ≤ 1 / 1000 := by
  have h := (boundingBox_spec I entity out).1
  constructor
  · intro hf
    by_contra hne
    have hall : ∀ k, k < 8 → clipW I.worldToScreenMatrix (worldCorner I entity k) > 1 / 1000 := by
      intro k hk
      by_contra hk2
      exact hne ⟨k, hk, not_lt.mp hk2⟩
    rw [h.mpr hall] at hf
    cases hf
  · rintro ⟨i, hi, hle⟩
    cases hb : (boundingBox I entity out).1 with
    | false => rfl
    | true => exact absurd (h.mp hb i hi) (not_lt.mpr hle)

/-- C7: `boundingBox` returns false exactly when one of the eight corners (each
combination of `obbMins`/`obbMaxs` per axis, transformed by the coordinate
frame) fails `worldToScreen`, that is has `w <= 0.001`; and when it returns
false, `renderPlayerBox` and `renderWeaponBox` make no call at all, whatever
the configuration. -/
theorem boundingBox_fails_iff (I : Interfaces) (entity : Entity) (out : BoundingBox) :
    ((boundingBox I entity out).1 = false ↔
      ∃ i, i < 8 ∧ (worldToScreen I (worldCorner I entity i) (out.vertices i)).1 = false) ∧
    ((boundingBox I entity out).1 = false ↔
      ∃ i, i < 8 ∧ clipW I.worldToScreenMatrix (worldCorner I entity i) ≤ 1 / 1000) ∧
    (∀ bx bY bz : Bool, ∃ i, i < 8 ∧
      worldCorner I entity i = I.transform
        { x := if bx then entity.obbMaxs.x else entity.obbMins.x
          y := if bY then entity.obbMaxs.y else entity.obbMins.y
          z := if bz then entity.obbMaxs.z else entity.obbMins.z } entity.coordinateFrame) ∧
    ((boundingBox I entity BoundingBox.uninitialized).1 = false →
      (∀ config : Player, renderPlayerBox I entity config = []) ∧
      (∀ config : Weapon, renderWeaponBox I entity config = [])) := by
  refine ⟨?_, boundingBox_false_iff I entity out, ?_, ?_⟩
  · rw [boundingBox_false_iff]
    constructor
    · rintro ⟨i, hi, hle⟩
      exact ⟨i, hi, (worldToScreen_false_iff I _ _).mpr hle⟩
    · rintro ⟨i, hi, hf⟩
      exact ⟨i, hi, (worldToScreen_false_iff I _ _).mp hf⟩
  · intro bx bY bz
    obtain ⟨i, hi, e⟩ := obbCorner_covers entity bx bY bz
    exact ⟨i, hi, by unfold worldCorner; rw [e]⟩
  · intro hf
    refine ⟨fun config => ?_, fun config => ?_⟩
    · simp [renderPlayerBox, hf]
    · simp [renderWeaponBox, hf]

/-! ## `renderBox`: the edges of the 3D box -/

theorem boxEdges_eq :
    boxEdges = [(0, 1), (0, 2), (0, 4), (1, 3), (1, 5), (2, 3), (2, 6), (3, 7),
      (4, 5), (4, 6), (5, 7), (6, 7)] := by
  decide

/-- C10: with box type 2, `renderBox` sets the colour and draws one line per
pair of `boxEdges`, from `vertices[i]` to `vertices[i + k]`; with box type 3 it
draws, for the same pairs, the first and the last quarter of each edge.  The
pairs are the twelve pairs `(i, i + k)`, `k` in `{1, 2, 4}`, with bit `k` of `i`
clear; every index is at most 7, so the output of both modes depends on no
vertex outside `vertices[0..7]`; and two corners are joined (exactly once)
exactly when their indices differ in exactly one of the three bits. -/
theorem renderBox_edges (I : Interfaces) (entity : Entity) (bbox : BoundingBox) (config : Shared) :
    (config.box = true → config.boxType = 2 →
      renderBox I entity bbox config =
        Event.surface (SurfaceCall.setDrawColor config.boxColor 255) ::
        boxEdges.map fun p =>
          line (bbox.vertices p.1).x (bbox.vertices p.1).y (bbox.vertices p.2).x (bbox.vertices p.2).y) ∧
    (config.box = true → config.boxType = 3 →
      renderBox I entity bbox config =
        Event.surface (SurfaceCall.setDrawColor config.boxColor 255) ::
        boxEdges.flatMap fun p =>
          [line (bbox.vertices p.1).x (bbox.vertices p.1).y
             ((bbox.vertices p.1).x + ((bbox.vertices p.2).x - (bbox.vertices p.1).x) * (1 / 4))
             ((bbox.vertices p.1).y + ((bbox.vertices p.2).y - (bbox.vertices p.1).y) * (1 / 4)),
           line ((bbox.vertices p.1).x + ((bbox.vertices p.2).x - (bbox.vertices p.1).x) * (3 / 4))
             ((bbox.vertices p.1).y + ((bbox.vertices p.2).y - (bbox.vertices p.1).y) * (3 / 4))
             (bbox.vertices p.2).x (bbox.vertices p.2).y]) ∧
    boxEdges.length = 12 ∧
    (boxEdges.flatMap fun p => [p, p]).length = 24 ∧
    (∀ p, p ∈ boxEdges → p.1 ≤ 7 ∧ p.2 ≤ 7) ∧
    (∀ i, i < 8 → ∀ k, k < 8 → ((i, i + k) ∈ boxEdges ↔ (k = 1 ∨ k = 2 ∨ k = 4) ∧ i &&& k = 0)) ∧
    (∀ a, a < 8 → ∀ b, b < 8 →
      boxEdges.count (a, b) + boxEdges.count (b, a) =
        if a ^^^ b = 1 ∨ a ^^^ b = 2 ∨ a ^^^ b = 4 then 1 else 0) ∧
    (∀ p, p ∈ boxEdges → p.1 < 8 ∧ p.2 < 8 ∧ p.1 < p.2) ∧
    (config.boxType = 2 ∨ config.boxType = 3 → ∀ bbox2 : BoundingBox,
      (∀ i, i ≤ 7 → bbox2.vertices i = bbox.vertices i) →
      renderBox I entity bbox2 config = renderBox I entity bbox config) := by
  refine ⟨?_, ?_, ?_, ?_, ?_, ?_, ?_, ?_, ?_⟩
  · intro hb ht
    simp only [renderBox, hb, ht, if_true, boxEdges_eq]
    simp +decide [List.range_succ, List.flatMap]
  · intro hb ht
    simp only [renderBox, hb, ht, if_true, boxEdges_eq]
    simp +decide [List.range_succ, List.flatMap]
  · rw [boxEdges_eq]; rfl
  · rw [boxEdges_eq]; rfl
  · rw [boxEdges_eq]; decide
  · rw [boxEdges_eq]; decide
  · rw [boxEdges_eq]; decide
  · rw [boxEdges_eq]; decide
  · intro ht bbox2 hv
    have h0 := hv 0 (by norm_num)
    have h1 := hv 1 (by norm_num)
    have h2 := hv 2 (by norm_num)
    have h3 := hv 3 (by norm_num)
    have h4 := hv 4 (by norm_num)
    have h5 := hv 5 (by norm_num)
    have h6 := hv 6 (by norm_num)
    have h7 := hv 7 (by norm_num)
    cases hb : config.box with
    | false => simp [renderBox, hb]
    | true =>
      rcases ht with ht | ht <;>
        simp +decide [renderBox, hb, ht, List.range_succ, List.flatMap,
          h0, h1, h2, h3, h4, h5, h6, h7]

/-! ## `renderPlayerBox`: the bars -/

theorem maxHealth_ge (I : Interfaces) (entity : Entity) : entity.health ≤ maxHealth I entity :=
  le_max_right _ _

/-- C9: for an entity with `health >= 1`, `maxHealth = max(base, health)` with
`base` the value of `sv_dz_player_max_health` when `game_type` is 6 and 100
otherwise, so `maxHealth >= health >= 1` and the divisor is not zero.  After a
successful `boundingBox`, the enabled health bar is the filled rectangle from
`(left - 8, y0)` to `(left - 5, top)` with
`y0 = bottom + (top - bottom) * (maxHealth - health) / maxHealth`, where
`bottom <= y0 <= top` and `top - y0 = (top - bottom) * health / maxHealth` (the
full height when `health = maxHealth`); the armor bar is drawn between
`X - 3` and `X` with `X = left - 5`, moved 7 further left exactly when the
health bar is enabled. -/
theorem healthBar_geometry (I : Interfaces) (entity : Entity) (config : Player)
    (hh : 1 ≤ entity.health)
    (hb : (boundingBox I entity BoundingBox.uninitialized).1 = true) :
    maxHealth I entity =
      max (if I.findVarGetInt "game_type" = 6 then I.findVarGetInt "sv_dz_player_max_health" else 100)
        entity.health ∧
    entity.health ≤ maxHealth I entity ∧
    1 ≤ maxHealth I entity ∧
    ((maxHealth I entity : Int) : ℚ) ≠ 0 ∧
    renderPlayerBox I entity config =
      renderBox I entity (boundingBox I entity BoundingBox.uninitialized).2 config.toShared ++
      (renderHealthBar I entity (boundingBox I entity BoundingBox.uninitialized).2 config
        ((boundingBox I entity BoundingBox.uninitialized).2.left - 5)).1 ++
      (renderArmorBar I entity (boundingBox I entity BoundingBox.uninitialized).2 config
        (if config.healthBar then (boundingBox I entity BoundingBox.uninitialized).2.left - 5 - 7
         else (boundingBox I entity BoundingBox.uninitialized).2.left - 5)).1 ++
      renderName I entity (boundingBox I entity BoundingBox.uninitialized).2 config ++
      renderLabels I entity (boundingBox I entity BoundingBox.uninitialized).2 config ∧
    (config.healthBar = true →
      (renderHealthBar I entity (boundingBox I entity BoundingBox.uninitialized).2 config
        ((boundingBox I entity BoundingBox.uninitialized).2.left - 5)).1 =
      [Event.surface (SurfaceCall.setDrawColor config.healthBarColor 255),
       Event.surface (SurfaceCall.drawFilledRect
         ((boundingBox I entity BoundingBox.uninitialized).2.left - 8)
         (healthBarY0 I entity (boundingBox I entity BoundingBox.uninitialized).2)
         ((boundingBox I entity BoundingBox.uninitialized).2.left - 5)
         (boundingBox I entity BoundingBox.uninitialized).2.top)] ++
      (if config.outline then
        [Event.surface (SurfaceCall.setDrawColor config.outlineColor 255),
         Event.surface (SurfaceCall.drawOutlinedRect
           ((boundingBox I entity BoundingBox.uninitialized).2.left - 5 - 4)
           ((boundingBox I entity BoundingBox.uninitialized).2.bottom - 1)
           ((boundingBox I entity BoundingBox.uninitialized).2.left - 5 + 1)
           ((boundingBox I entity BoundingBox.uninitialized).2.top + 1))]
       else [])) ∧
    (config.healthBar = false →
      (renderHealthBar I entity (boundingBox I entity BoundingBox.uninitialized).2 config
        ((boundingBox I entity BoundingBox.uninitialized).2.left - 5)).1 = []) ∧
    (boundingBox I entity BoundingBox.uninitialized).2.bottom ≤
      healthBarY0 I entity (boundingBox I entity BoundingBox.uninitialized).2 ∧
    healthBarY0 I entity (boundingBox I entity BoundingBox.uninitialized).2 ≤
      (boundingBox I entity BoundingBox.uninitialized).2.top ∧
    (boundingBox I entity BoundingBox.uninitialized).2.top -
        healthBarY0 I entity (boundingBox I entity BoundingBox.uninitialized).2 =
      ((boundingBox I entity BoundingBox.uninitialized).2.top -
        (boundingBox I entity BoundingBox.uninitialized).2.bottom) *
        (entity.health : ℚ) / ((maxHealth I entity : Int) : ℚ) ∧
    (entity.health = maxHealth I entity →
      (boundingBox I entity BoundingBox.uninitialized).2.top -
          healthBarY0 I entity (boundingBox I entity BoundingBox.uninitialized).2 =
        (boundingBox I entity BoundingBox.uninitialized).2.top -
          (boundingBox I entity BoundingBox.uninitialized).2.bottom) ∧
    (config.armorBar = true → ∀ X : ℚ,
      (renderArmorBar I entity (boundingBox I entity BoundingBox.uninitialized).2 config X).1 =
      [Event.surface (SurfaceCall.setDrawColor config.armorBarColor 255),
       Event.surface (SurfaceCall.drawFilledRect (X - 3)
         ((boundingBox I entity BoundingBox.uninitialized).2.bottom +
           ((boundingBox I entity BoundingBox.uninitialized).2.top -
             (boundingBox I entity BoundingBox.uninitialized).2.bottom) *
             (100 - (entity.armor : ℚ)) / 100)
         X (boundingBox I entity BoundingBox.uninitialized).2.top)] ++
      (if config.outline then
        [Event.surface (SurfaceCall.setDrawColor config.outlineColor 255),
         Event.surface (SurfaceCall.drawOutlinedRect (X - 4)
           ((boundingBox I entity BoundingBox.uninitialized).2.bottom - 1) (X + 1)
           ((boundingBox I entity BoundingBox.uninitialized).2.top + 1))]
       else [])) := by
  have hbt := boundingBox_bottom_le_top I entity BoundingBox.uninitialized hb
  have habs : |(boundingBox I entity BoundingBox.uninitialized).2.top -
      (boundingBox I entity BoundingBox.uninitialized).2.bottom| =
      (boundingBox I entity BoundingBox.uninitialized).2.top -
      (boundingBox I entity BoundingBox.uninitialized).2.bottom :=
    abs_of_nonneg (sub_nonneg.mpr hbt)
  have hrpb : renderPlayerBox I entity config =
      renderBox I entity (boundingBox I entity BoundingBox.uninitialized).2 config.toShared ++
      (renderHealthBar I entity (boundingBox I entity BoundingBox.uninitialized).2 config
        ((boundingBox I entity BoundingBox.uninitialized).2.left - 5)).1 ++
      (renderArmorBar I entity (boundingBox I entity BoundingBox.uninitialized).2 config
        (if config.healthBar then (boundingBox I entity BoundingBox.uninitialized).2.left - 5 - 7
         else (boundingBox I entity BoundingBox.uninitialized).2.left - 5)).1 ++
      renderName I entity (boundingBox I entity BoundingBox.uninitialized).2 config ++
      renderLabels I entity (boundingBox I entity BoundingBox.uninitialized).2 config := by
    have hx : (renderHealthBar I entity (boundingBox I entity BoundingBox.uninitialized).2 config
        ((boundingBox I entity BoundingBox.uninitialized).2.left - 5)).2 =
        (if config.healthBar then (boundingBox I entity BoundingBox.uninitialized).2.left - 5 - 7
         else (boundingBox I entity BoundingBox.uninitialized).2.left - 5) := by
      unfold renderHealthBar
      cases config.healthBar <;> simp
    rw [← hx]
    simp only [renderPlayerBox, hb, if_true]
  generalize (boundingBox I entity BoundingBox.uninitialized).2 = bbox at *
  have hge := maxHealth_ge I entity
  have h1 : 1 ≤ maxHealth I entity := le_trans hh hge
  have hpos : (0 : ℚ) < ((maxHealth I entity : Int) : ℚ) := by exact_mod_cast h1
  have hne : ((maxHealth I entity : Int) : ℚ) ≠ 0 := ne_of_gt hpos
  have hhq : (0 : ℚ) < (entity.health : ℚ) := by exact_mod_cast hh
  have hdq : (0 : ℚ) ≤ ((maxHealth I entity - entity.health : Int) : ℚ) := by
    have : (0 : Int) ≤ maxHealth I entity - entity.health := by omega
    exact_mod_cast this
  have hcast : ((maxHealth I entity - entity.health : Int) : ℚ) =
      ((maxHealth I entity : Int) : ℚ) - (entity.health : ℚ) := by push_cast; ring
  have hd : (0 : ℚ) ≤ bbox.top - bbox.bottom := sub_nonneg.mpr hbt
  have hkey : bbox.top - healthBarY0 I entity bbox =
      (bbox.top - bbox.bottom) * (entity.health : ℚ) / ((maxHealth I entity : Int) : ℚ) := by
    unfold healthBarY0
    rw [hcast]
    field_simp
    ring
  refine ⟨rfl, hge, h1, hne, hrpb, ?_, ?_, ?_, ?_, hkey, ?_, ?_⟩
  · intro hc
    have e8 : bbox.left - 5 - 3 = bbox.left - 8 := by ring
    simp only [renderHealthBar, hc, if_true, habs, healthBarY0, e8]
  · intro hc
    simp [renderHealthBar, hc]
  · unfold healthBarY0
    have : 0 ≤ (bbox.top - bbox.bottom) * ((maxHealth I entity - entity.health : Int) : ℚ) /
        ((maxHealth I entity : Int) : ℚ) := div_nonneg (mul_nonneg hd hdq) (le_of_lt hpos)
    linarith
  · have : 0 ≤ (bbox.top - bbox.bottom) * (entity.health : ℚ) / ((maxHealth I entity : Int) : ℚ) :=
      div_nonneg (mul_nonneg hd (le_of_lt hhq)) (le_of_lt hpos)
    linarith
  · intro he
    rw [hkey, he]
    field_simp
  · intro hc X
    simp only [renderArmorBar, hc, if_true, habs]

/-! ## The per-frame scan: lemmas -/

theorem mem_loopIndices (lo hi i : Int) : i ∈ loopIndices lo hi ↔ lo ≤ i ∧ i ≤ hi := by
  unfold loopIndices
  rw [List.mem_map]
  constructor
  · rintro ⟨k, hk, rfl⟩
    have := List.mem_range.mp hk
    omega
  · rintro ⟨h1, h2⟩
    refine ⟨(i - lo).toNat, List.mem_range.mpr ?_, ?_⟩ <;> omega

theorem nodup_loopIndices (lo hi : Int) : (loopIndices lo hi).Nodup := by
  unfold loopIndices
  apply List.Nodup.map _ (List.nodup_range _)
  intro a b h
  have : lo + (a : Int) = lo + (b : Int) := h
  omega

theorem mem_atSite (s : Site) (es : List Event) (se : Site × Event) (h : se ∈ atSite s es) :
    se.1 = s ∧ se.2 ∈ es := by
  unfold atSite at h
  obtain ⟨e, he, rfl⟩ := List.mem_map.mp h
  exact ⟨rfl, he⟩

theorem renderEspForEntity_fst (I : Interfaces) (config : EspConfig) (entity : Entity) (id : EspId) :
    (renderEspForEntity I config entity id).1 = (config.players id).enabled := by
  unfold renderEspForEntity
  split <;> rfl

theorem mem_espCall (I : Interfaces) (config : EspConfig) (i : Int) (entity : Entity) (id : EspId)
    (se : Site × Event) (h : se ∈ espCall I config i entity id) :
    se.1 = Site.playerEsp i id ∧ (config.players id).enabled = true ∧
      se.2 ∈ (renderEspForEntity I config entity id).2 := by
  obtain ⟨h1, h2⟩ := mem_atSite _ _ _ h
  refine ⟨h1, ?_, h2⟩
  cases hen : (config.players id).enabled with
  | true => rfl
  | false => simp [renderEspForEntity, hen] at h2

theorem mem_team (I : Interfaces) (config : EspConfig) (i : Int) (entity : Entity)
    (all vis occ : EspId) (se : Site × Event)
    (h : se ∈ espCall I config i entity all ++
      (if !(renderEspForEntity I config entity all).1 then
        (if entity.isVisible then espCall I config i entity vis
         else espCall I config i entity occ)
       else [])) :
    ∃ id, id = (if (config.players all).enabled then all
        else if entity.isVisible then vis else occ) ∧
      se.1 = Site.playerEsp i id ∧ (config.players id).enabled = true ∧
      se.2 ∈ (renderEspForEntity I config entity id).2 := by
  rw [renderEspForEntity_fst] at h
  rcases List.mem_append.mp h with h1 | h1
  · obtain ⟨k1, k2, k3⟩ := mem_espCall _ _ _ _ _ _ h1
    exact ⟨all, by simp [k2], k1, k2, k3⟩
  · cases ha : (config.players all).enabled with
    | true => simp [ha] at h1
    | false =>
      cases hv : entity.isVisible with
      | true =>
        simp only [ha, hv, Bool.not_false, if_true] at h1
        obtain ⟨k1, k2, k3⟩ := mem_espCall _ _ _ _ _ _ h1
        exact ⟨vis, by simp, k1, k2, k3⟩
      | false =>
        simp only [ha, hv, Bool.not_false, if_true, Bool.false_eq_true, if_false] at h1
        obtain ⟨k1, k2, k3⟩ := mem_espCall _ _ _ _ _ _ h1
        exact ⟨occ, by simp, k1, k2, k3⟩

theorem playerBody_sites (I : Interfaces) (config : EspConfig) (lp : Option Entity) (i : Int)
    (se : Site × Event) (h : se ∈ playerBody I config lp i) :
    ∃ entity id, I.getEntity i = some entity ∧
      (isLocalPlayer entity lp || entity.isDormant || !entity.isAlive) = false ∧
      se.1 = Site.playerEsp i id ∧ id = espSlot config entity ∧
      (config.players id).enabled = true ∧ se.2 ∈ (renderEspForEntity I config entity id).2 := by
  unfold playerBody at h
  cases hge : I.getEntity i with
  | none => simp [hge] at h
  | some entity =>
    simp only [hge] at h
    cases hskip : (isLocalPlayer entity lp || entity.isDormant || !entity.isAlive) with
    | true =>
      simp only [hskip, if_true] at h
      cases h
    | false =>
      cases hen : entity.isEnemy with
      | false =>
        simp only [hskip, hen, Bool.not_false, if_true, Bool.false_eq_true, if_false] at h
        obtain ⟨id, e, k1, k2, k3⟩ := mem_team _ _ _ _ _ _ _ _ h
        exact ⟨entity, id, rfl, hskip, k1, by rw [e]; simp [espSlot, hen], k2, k3⟩
      | true =>
        simp only [hskip, hen, Bool.not_true, Bool.false_eq_true, if_false] at h
        obtain ⟨id, e, k1, k2, k3⟩ := mem_team _ _ _ _ _ _ _ _ h
        exact ⟨entity, id, rfl, hskip, k1, by rw [e]; simp [espSlot, hen], k2, k3⟩

theorem weaponBody_sites (I : Interfaces) (config : EspConfig) (i : Int)
    (se : Site × Event) (h : se ∈ weaponBody I config i) :
    ∃ entity, I.getEntity i = some entity ∧
      (entity.isDormant || !entity.isWeapon || decide (entity.ownerEntity ≠ -1)) = false ∧
      se.1 = Site.weaponEsp i ∧ se.2 ∈ renderWeaponEsp I config entity := by
  unfold weaponBody at h
  cases hge : I.getEntity i with
  | none => simp [hge] at h
  | some entity =>
    simp only [hge] at h
    cases hskip : (entity.isDormant || !entity.isWeapon || decide (entity.ownerEntity ≠ -1)) with
    | true =>
      simp only [hskip, if_true] at h
      cases h
    | false =>
      simp only [hskip, Bool.false_eq_true, if_false] at h
      obtain ⟨k1, k2⟩ := mem_atSite _ _ _ h
      exact ⟨entity, rfl, hskip, k1, k2⟩

theorem espCall_disabled (I : Interfaces) (config : EspConfig) (i : Int) (entity : Entity)
    (id : EspId) (h : (config.players id).enabled = false) :
    espCall I config i entity id = [] := by
  simp [espCall, renderEspForEntity, h, atSite]

theorem playerBody_eq (I : Interfaces) (config : EspConfig) (lp : Option Entity) (i : Int)
    (entity : Entity) (hge : I.getEntity i = some entity)
    (hskip : (isLocalPlayer entity lp || entity.isDormant || !entity.isAlive) = false) :
    playerBody I config lp i =
      if (config.players (espSlot config entity)).enabled then
        espCall I config i entity (espSlot config entity)
      else [] := by
  unfold playerBody
  simp only [hge, hskip, renderEspForEntity_fst, Bool.false_eq_true, if_false]
  cases hen : entity.isEnemy <;> cases hvis : entity.isVisible <;>
    cases ha : (config.players EspId.ALLIES_ALL).enabled <;>
    cases he : (config.players EspId.ENEMIES_ALL).enabled <;>
    simp [espSlot, hen, hvis, ha, he, espCall_disabled] <;>
    split <;> simp_all [espCall_disabled]

theorem playerIteration_index (I : Interfaces) (config : EspConfig) (lp : Option Entity) (i : Int)
    (se : Site × Event) (h : se ∈ playerIteration I config lp i) : se.1.index = some i := by
  unfold playerIteration at h
  rcases List.mem_cons.mp h with h | h
  · rw [h]; rfl
  · obtain ⟨_, id, _, _, hs, _⟩ := playerBody_sites _ _ _ _ _ h
    rw [hs]; rfl

theorem weaponIteration_index (I : Interfaces) (config : EspConfig) (i : Int)
    (se : Site × Event) (h : se ∈ weaponIteration I config i) : se.1.index = some i := by
  unfold weaponIteration at h
  rcases List.mem_cons.mp h with h | h
  · rw [h]; rfl
  · obtain ⟨_, _, _, hs, _⟩ := weaponBody_sites _ _ _ _ h
    rw [hs]; rfl

theorem eventsAt_append (a b : List (Site × Event)) (i : Int) :
    eventsAt (a ++ b) i = eventsAt a i ++ eventsAt b i := by
  unfold eventsAt
  exact List.filter_append _ _

theorem eventsAt_of_index (l : List (Site × Event)) (i j : Int)
    (h : ∀ se, se ∈ l → se.1.index = some j) :
    eventsAt l i = if j = i then l else [] := by
  unfold eventsAt
  by_cases hji : j = i
  · rw [if_pos hji]
    apply List.filter_eq_self.mpr
    intro se hse
    rw [h se hse, hji]
    simp
  · rw [if_neg hji]
    apply List.filter_eq_nil_iff.mpr
    intro se hse
    rw [h se hse]
    simpa using hji

theorem eventsAt_flatMap (f : Int → List (Site × Event)) (l : List Int) (hnd : l.Nodup)
    (hf : ∀ j se, se ∈ f j → se.1.index = some j) (i : Int) :
    eventsAt (l.flatMap f) i = if i ∈ l then f i else [] := by
  induction l with
  | nil => simp [eventsAt]
  | cons a t ih =>
    rw [List.flatMap_cons, eventsAt_append, ih (List.nodup_cons.mp hnd).2,
      eventsAt_of_index (f a) i a (hf a)]
    by_cases hai : a = i
    · subst hai
      have hnot : a ∉ t := (List.nodup_cons.mp hnd).1
      simp [hnot]
    · have hne : ¬ i = a := fun e => hai e.symm
      simp [hai, hne]

theorem eventsAt_render (I : Interfaces) (config : EspConfig) (hg : I.isInGame = true) (i : Int) :
    eventsAt (Esp.render I config) i =
      (if 1 ≤ i ∧ i ≤ I.getMaxClients then
        playerIteration I config (I.getEntity I.getLocalPlayer) i else []) ++
      (if I.getMaxClients + 1 ≤ i ∧ i ≤ I.getHighestEntityIndex then
        weaponIteration I config i else []) := by
  unfold Esp.render
  simp only [hg, if_true]
  have hcons : ∀ (x : Site × Event) (l : List (Site × Event)), x :: l = [x] ++ l := fun _ _ => rfl
  rw [hcons, eventsAt_append, eventsAt_append,
    eventsAt_flatMap _ _ (nodup_loopIndices _ _) (playerIteration_index I config _),
    eventsAt_flatMap _ _ (nodup_loopIndices _ _) (weaponIteration_index I config)]
  simp only [mem_loopIndices]
  have : eventsAt [(Site.prologue, Event.getEntity I.getLocalPlayer)] i = [] := by
    simp [eventsAt, Site.index]
  rw [this, List.nil_append]

theorem mem_render (I : Interfaces) (config : EspConfig) (se : Site × Event)
    (h : se ∈ Esp.render I config) :
    I.isInGame = true ∧
    (se = (Site.prologue, Event.getEntity I.getLocalPlayer) ∨
     (∃ j, (1 ≤ j ∧ j ≤ I.getMaxClients) ∧
        se ∈ playerIteration I config (I.getEntity I.getLocalPlayer) j) ∨
     (∃ j, (I.getMaxClients + 1 ≤ j ∧ j ≤ I.getHighestEntityIndex) ∧
        se ∈ weaponIteration I config j)) := by
  unfold Esp.render at h
  cases hg : I.isInGame with
  | false => simp [hg] at h
  | true =>
    simp only [hg, if_true] at h
    refine ⟨rfl, ?_⟩
    rcases List.mem_cons.mp h with h | h
    · exact Or.inl h
    · rcases List.mem_append.mp h with h | h
      · obtain ⟨j, hj, hm⟩ := List.mem_flatMap.mp h
        exact Or.inr (Or.inl ⟨j, (mem_loopIndices _ _ _).mp hj, hm⟩)
      · obtain ⟨j, hj, hm⟩ := List.mem_flatMap.mp h
        exact Or.inr (Or.inr ⟨j, (mem_loopIndices _ _ _).mp hj, hm⟩)

theorem mem_render_playerEsp (I : Interfaces) (config : EspConfig) (i : Int) (id : EspId)
    (ev : Event) (h : (Site.playerEsp i id, ev) ∈ Esp.render I config) :
    I.isInGame = true ∧ (1 ≤ i ∧ i ≤ I.getMaxClients) ∧
    ∃ entity, I.getEntity i = some entity ∧ passesPlayerFilter I entity = true ∧
      id = espSlot config entity ∧ (config.players id).enabled = true ∧
      ev ∈ (renderEspForEntity I config entity id).2 := by
  obtain ⟨hg, h | ⟨j, hj, h⟩ | ⟨j, hj, h⟩⟩ := mem_render I config _ h
  · cases h
  · unfold playerIteration at h
    rcases List.mem_cons.mp h with h | h
    · cases h
    · obtain ⟨entity, id2, hge, hskip, hs, hid, hen, hev⟩ := playerBody_sites _ _ _ _ _ h
      have hs2 : Site.playerEsp i id = Site.playerEsp j id2 := hs
      injection hs2 with e1 e2
      subst e1; subst e2
      exact ⟨hg, hj, entity, hge, by simp [passesPlayerFilter, hskip], hid, hen, hev⟩
  · unfold weaponIteration at h
    rcases List.mem_cons.mp h with h | h
    · cases h
    · obtain ⟨_, _, _, hs, _⟩ := weaponBody_sites _ _ _ _ h
      cases hs

theorem mem_render_weaponEsp (I : Interfaces) (config : EspConfig) (i : Int)
    (ev : Event) (h : (Site.weaponEsp i, ev) ∈ Esp.render I config) :
    I.isInGame = true ∧ (I.getMaxClients + 1 ≤ i ∧ i ≤ I.getHighestEntityIndex) ∧
    ∃ entity, I.getEntity i = some entity ∧
      (entity.isDormant || !entity.isWeapon || decide (entity.ownerEntity ≠ -1)) = false ∧
      ev ∈ renderWeaponEsp I config entity := by
  obtain ⟨hg, h | ⟨j, hj, h⟩ | ⟨j, hj, h⟩⟩ := mem_render I config _ h
  · cases h
  · unfold playerIteration at h
    rcases List.mem_cons.mp h with h | h
    · cases h
    · obtain ⟨_, _, _, _, hs, _⟩ := playerBody_sites _ _ _ _ _ h
      cases hs
  · unfold weaponIteration at h
    rcases List.mem_cons.mp h with h | h
    · cases h
    · obtain ⟨entity, hge, hskip, hs, hev⟩ := weaponBody_sites _ _ _ _ h
      have hs2 : Site.weaponEsp i = Site.weaponEsp j := hs
      injection hs2 with e1
      subst e1
      exact ⟨hg, hj, entity, hge, hskip, hev⟩

theorem espSlot_team (config : EspConfig) (entity : Entity) :
    (espSlot config entity).isEnemySlot = entity.isEnemy ∧
    ((config.players (espSlot config entity).catchAll).enabled = true →
      espSlot config entity = (espSlot config entity).catchAll) := by
  unfold espSlot
  cases hen : entity.isEnemy <;> cases hvis : entity.isVisible <;>
    cases ha : (config.players EspId.ALLIES_ALL).enabled <;>
    cases he : (config.players EspId.ENEMIES_ALL).enabled <;>
    simp [EspId.isEnemySlot, EspId.catchAll, ha, he]

/-- C1: in the first loop, an entity that passes the skip filter is handled by
exactly one slot, `espSlot`: the catch-all slot of its team when that slot is
enabled, else the visible or the occluded slot of its team according to
`isVisible()`; that slot draws (snaplines, eye traces, player box, head dot)
only if it is itself enabled.  Hence every event produced inside
`renderEspForEntity` at index `i` belongs to that one enabled slot: at most one
slot issues calls for an entity (also when the table holds it at two indices),
never a slot of the other team, and never the visible or occluded slot when the
catch-all slot of the team is enabled. -/
theorem render_classification (I : Interfaces) (config : EspConfig) :
    (∀ i entity, I.isInGame = true → 1 ≤ i → i ≤ I.getMaxClients →
      I.getEntity i = some entity → passesPlayerFilter I entity = true →
      eventsAt (Esp.render I config) i =
        (Site.playerLoop i, Event.getEntity i) ::
        (if (config.players (espSlot config entity)).enabled then
          atSite (Site.playerEsp i (espSlot config entity))
            (renderSnaplines I entity (config.players (espSlot config entity)).toShared ++
             renderEyeTraces I entity (config.players (espSlot config entity)) ++
             renderPlayerBox I entity (config.players (espSlot config entity)) ++
             renderHeadDot I entity (config.players (espSlot config entity)))
         else [])) ∧
    (∀ i id ev, (Site.playerEsp i id, ev) ∈ Esp.render I config →
      ∃ entity, I.getEntity i = some entity ∧ passesPlayerFilter I entity = true ∧
        id = espSlot config entity ∧ (config.players id).enabled = true ∧
        id.isEnemySlot = entity.isEnemy ∧
        ((config.players id.catchAll).enabled = true → id = id.catchAll)) ∧
    (∀ i j id id2 ev ev2, (Site.playerEsp i id, ev) ∈ Esp.render I config →
      (Site.playerEsp j id2, ev2) ∈ Esp.render I config →
      I.getEntity i = I.getEntity j → id = id2) := by
  refine ⟨?_, ?_, ?_⟩
  · intro i entity hg h1 h2 hge hpass
    have hskip : (isLocalPlayer entity (I.getEntity I.getLocalPlayer) || entity.isDormant ||
        !entity.isAlive) = false := by
      unfold passesPlayerFilter at hpass
      simpa using hpass
    have hw : ¬ (I.getMaxClients + 1 ≤ i ∧ i ≤ I.getHighestEntityIndex) := by omega
    rw [eventsAt_render I config hg, if_pos ⟨h1, h2⟩, if_neg hw, List.append_nil]
    unfold playerIteration
    rw [playerBody_eq I config _ i entity hge hskip]
    cases hen : (config.players (espSlot config entity)).enabled with
    | false => simp
    | true => simp [espCall, renderEspForEntity, hen]
  · intro i id ev h
    obtain ⟨_, _, entity, hge, hpass, hid, hen, _⟩ := mem_render_playerEsp I config i id ev h
    obtain ⟨t1, t2⟩ := espSlot_team config entity
    rw [← hid] at t1 t2
    exact ⟨entity, hge, hpass, hid, hen, t1, t2⟩
  · intro i j id id2 ev ev2 h h2 hsame
    obtain ⟨_, _, entity, hge, _, hid, _, _⟩ := mem_render_playerEsp I config i id ev h
    obtain ⟨_, _, entity2, hge2, _, hid2, _, _⟩ := mem_render_playerEsp I config j id2 ev2 h2
    rw [hsame, hge2] at hge
    injection hge with e
    subst e
    rw [hid, hid2]

theorem drawsAt_nil_of_bodies (I : Interfaces) (config : EspConfig) (i : Int)
    (hp : 1 ≤ i ∧ i ≤ I.getMaxClients →
      playerBody I config (I.getEntity I.getLocalPlayer) i = [])
    (hw : I.getMaxClients + 1 ≤ i ∧ i ≤ I.getHighestEntityIndex → weaponBody I config i = []) :
    drawsAt (Esp.render I config) i = [] := by
  unfold drawsAt
  cases hg : I.isInGame with
  | false => simp [Esp.render, hg, eventsAt]
  | true =>
    rw [eventsAt_render I config hg]
    by_cases h1 : 1 ≤ i ∧ i ≤ I.getMaxClients <;>
      by_cases h2 : I.getMaxClients + 1 ≤ i ∧ i ≤ I.getHighestEntityIndex <;>
      simp [h1, h2, playerIteration, weaponIteration, hp, hw]

theorem playerBody_none (I : Interfaces) (config : EspConfig) (lp : Option Entity) (i : Int)
    (h : I.getEntity i = none) : playerBody I config lp i = [] := by
  simp [playerBody, h]

theorem playerBody_skip (I : Interfaces) (config : EspConfig) (lp : Option Entity) (i : Int)
    (entity : Entity) (h : I.getEntity i = some entity)
    (hs : (isLocalPlayer entity lp || entity.isDormant || !entity.isAlive) = true) :
    playerBody I config lp i = [] := by
  simp only [playerBody, h, hs, if_true]

theorem weaponBody_none (I : Interfaces) (config : EspConfig) (i : Int)
    (h : I.getEntity i = none) : weaponBody I config i = [] := by
  simp [weaponBody, h]

theorem weaponBody_skip (I : Interfaces) (config : EspConfig) (i : Int)
    (entity : Entity) (h : I.getEntity i = some entity)
    (hs : (entity.isDormant || !entity.isWeapon || decide (entity.ownerEntity ≠ -1)) = true) :
    weaponBody I config i = [] := by
  simp only [weaponBody, h, hs, if_true]

/-- C2: skipped entities are never drawn.  When `isInGame()` is false the frame is
empty.  No surface call is issued for an index whose entity is dormant.  In the
player range `1..maxClients` none is issued for a null entity, for the local
player or for an entity that is not alive; in the weapon range
`maxClients+1..highestEntityIndex` none is issued for a null entity, for an
entity that is not a weapon or for a weapon whose `ownerEntity()` is not -1. -/
theorem render_skips (I : Interfaces) (config : EspConfig) :
    (I.isInGame = false → Esp.render I config = []) ∧
    (∀ i entity, I.getEntity i = some entity → entity.isDormant = true →
      drawsAt (Esp.render I config) i = []) ∧
    (∀ i, 1 ≤ i → i ≤ I.getMaxClients → I.getEntity i = none →
      drawsAt (Esp.render I config) i = []) ∧
    (∀ i entity, 1 ≤ i → i ≤ I.getMaxClients → I.getEntity i = some entity →
      isLocalPlayer entity (I.getEntity I.getLocalPlayer) = true ∨ entity.isAlive = false →
      drawsAt (Esp.render I config) i = []) ∧
    (∀ i, I.getMaxClients + 1 ≤ i → i ≤ I.getHighestEntityIndex → I.getEntity i = none →
      drawsAt (Esp.render I config) i = []) ∧
    (∀ i entity, I.getMaxClients + 1 ≤ i → i ≤ I.getHighestEntityIndex →
      I.getEntity i = some entity → entity.isWeapon = false ∨ entity.ownerEntity ≠ -1 →
      drawsAt (Esp.render I config) i = []) := by
  refine ⟨?_, ?_, ?_, ?_, ?_, ?_⟩
  · intro hg
    simp [Esp.render, hg]
  · intro i entity hge hd
    apply drawsAt_nil_of_bodies
    · intro _
      exact playerBody_skip I config _ i entity hge (by simp [hd])
    · intro _
      exact weaponBody_skip I config i entity hge (by simp [hd])
  · intro i h1 h2 hge
    apply drawsAt_nil_of_bodies
    · intro _
      exact playerBody_none I config _ i hge
    · intro h
      omega
  · intro i entity h1 h2 hge hs
    apply drawsAt_nil_of_bodies
    · intro _
      apply playerBody_skip I config _ i entity hge
      rcases hs with hs | hs <;> simp [hs]
    · intro h
      omega
  · intro i h1 h2 hge
    apply drawsAt_nil_of_bodies
    · intro h
      omega
    · intro _
      exact weaponBody_none I config i hge
  · intro i entity h1 h2 hge hs
    apply drawsAt_nil_of_bodies
    · intro h
      omega
    · intro _
      apply weaponBody_skip I config i entity hge
      rcases hs with hs | hs <;> simp [hs]

/-! ## The per-frame scan: lookups -/

theorem renderSnaplines_surface (I : Interfaces) (entity : Entity) (config : Shared) (j : Int) :
    Event.getEntity j ∉ renderSnaplines I entity config := by
  unfold renderSnaplines
  split_ifs <;> simp

theorem renderEyeTraces_surface (I : Interfaces) (entity : Entity) (config : Player) (j : Int) :
    Event.getEntity j ∉ renderEyeTraces I entity config := by
  unfold renderEyeTraces
  split_ifs <;> simp

theorem renderBox_surface (I : Interfaces) (entity : Entity) (bbox : BoundingBox) (config : Shared)
    (j : Int) : Event.getEntity j ∉ renderBox I entity bbox config := by
  unfold renderBox
  split_ifs <;> simp [line, List.mem_flatMap]

theorem renderPlayerBox_surface (I : Interfaces) (entity : Entity) (config : Player) (j : Int) :
    Event.getEntity j ∉ renderPlayerBox I entity config := by
  simp only [renderPlayerBox]
  split_ifs
  · simp only [List.mem_append, not_or]
    refine ⟨⟨⟨⟨renderBox_surface _ _ _ _ _, ?_⟩, ?_⟩, ?_⟩, ?_⟩
    · unfold renderHealthBar
      split_ifs <;> simp
    · unfold renderArmorBar
      split_ifs <;> simp
    · unfold renderName
      split_ifs
      · split
        · split <;> simp
        · simp
      · simp
    · unfold renderLabels renderPositionedText
      split_ifs <;> simp
  · simp

theorem renderWeaponEsp_surface (I : Interfaces) (config : EspConfig) (entity : Entity) (j : Int) :
    Event.getEntity j ∉ renderWeaponEsp I config entity := by
  unfold renderWeaponEsp renderWeaponBox
  split_ifs <;> simp [renderBox_surface, renderSnaplines_surface]

theorem renderHeadDot_lookup (I : Interfaces) (entity : Entity) (config : Player) (j : Int)
    (h : Event.getEntity j ∈ renderHeadDot I entity config) : j = I.getLocalPlayer := by
  simp only [renderHeadDot] at h
  split_ifs at h
  · simp only [List.mem_append, List.mem_cons, List.mem_singleton] at h
    rcases h with (h | h | h) | h
    · cases h
    · injection h
    · cases h
    · split at h <;> simp at h
  · cases h
  · cases h

theorem renderEspForEntity_lookup (I : Interfaces) (config : EspConfig) (entity : Entity)
    (id : EspId) (j : Int) (h : Event.getEntity j ∈ (renderEspForEntity I config entity id).2) :
    j = I.getLocalPlayer := by
  simp only [renderEspForEntity] at h
  split_ifs at h
  · simp only [List.mem_append] at h
    rcases h with ((h | h) | h) | h
    · exact absurd h (renderSnaplines_surface _ _ _ _)
    · exact absurd h (renderEyeTraces_surface _ _ _ _)
    · exact absurd h (renderPlayerBox_surface _ _ _ _)
    · exact renderHeadDot_lookup _ _ _ _ h
  · cases h

theorem filterMap_flatMap_eq {α β γ : Type} (g : β → Option γ) (f : α → List β) (l : List α) :
    (l.flatMap f).filterMap g = l.flatMap fun a => (f a).filterMap g := by
  induction l with
  | nil => rfl
  | cons a t ih => rw [List.flatMap_cons, List.flatMap_cons, List.filterMap_append, ih]

theorem filterMap_nil_of_forall {β γ : Type} (g : β → Option γ) (l : List β)
    (h : ∀ x, x ∈ l → g x = none) : l.filterMap g = [] := by
  induction l with
  | nil => rfl
  | cons a t ih =>
    rw [List.filterMap_cons, h a (List.mem_cons_self a t)]
    exact ih fun x hx => h x (List.mem_cons_of_mem a hx)

theorem flatMap_singleton_id (l : List Int) : (l.flatMap fun a => [a]) = l := by
  induction l with
  | nil => rfl
  | cons a t ih => rw [List.flatMap_cons, ih]; rfl

theorem flatMap_nil_const (l : List Int) : (l.flatMap fun _ => ([] : List Int)) = [] := by
  induction l with
  | nil => rfl
  | cons a t ih => rw [List.flatMap_cons, ih]; rfl

theorem playerLoopVisits_playerIteration (I : Interfaces) (config : EspConfig)
    (lp : Option Entity) (j : Int) :
    playerLoopVisits (playerIteration I config lp j) = [j] := by
  unfold playerLoopVisits playerIteration
  rw [List.filterMap_cons]
  simp only
  rw [filterMap_nil_of_forall]
  intro se hse
  obtain ⟨_, id, _, _, hs, _⟩ := playerBody_sites _ _ _ _ _ hse
  obtain ⟨s, e⟩ := se
  simp only at hs
  subst hs
  rfl

theorem playerLoopVisits_weaponIteration (I : Interfaces) (config : EspConfig) (j : Int) :
    playerLoopVisits (weaponIteration I config j) = [] := by
  unfold playerLoopVisits weaponIteration
  rw [List.filterMap_cons]
  simp only
  rw [filterMap_nil_of_forall]
  intro se hse
  obtain ⟨_, _, _, hs, _⟩ := weaponBody_sites _ _ _ _ hse
  obtain ⟨s, e⟩ := se
  simp only at hs
  subst hs
  rfl

theorem weaponLoopVisits_weaponIteration (I : Interfaces) (config : EspConfig) (j : Int) :
    weaponLoopVisits (weaponIteration I config j) = [j] := by
  unfold weaponLoopVisits weaponIteration
  rw [List.filterMap_cons]
  simp only
  rw [filterMap_nil_of_forall]
  intro se hse
  obtain ⟨_, _, _, hs, _⟩ := weaponBody_sites _ _ _ _ hse
  obtain ⟨s, e⟩ := se
  simp only at hs
  subst hs
  rfl

theorem weaponLoopVisits_playerIteration (I : Interfaces) (config : EspConfig)
    (lp : Option Entity) (j : Int) :
    weaponLoopVisits (playerIteration I config lp j) = [] := by
  unfold weaponLoopVisits playerIteration
  rw [List.filterMap_cons]
  simp only
  rw [filterMap_nil_of_forall]
  intro se hse
  obtain ⟨_, id, _, _, hs, _⟩ := playerBody_sites _ _ _ _ _ hse
  obtain ⟨s, e⟩ := se
  simp only at hs
  subst hs
  rfl

theorem playerLoopVisits_render (I : Interfaces) (config : EspConfig) (hg : I.isInGame = true) :
    playerLoopVisits (Esp.render I config) = loopIndices 1 I.getMaxClients := by
  have h1 : ∀ l : List Int,
      playerLoopVisits (l.flatMap (playerIteration I config (I.getEntity I.getLocalPlayer))) = l := by
    intro l
    unfold playerLoopVisits
    rw [filterMap_flatMap_eq]
    have : (fun a => List.filterMap (fun se : Site × Event =>
        match se with
        | (Site.playerLoop _, Event.getEntity j) => some j
        | _ => none) (playerIteration I config (I.getEntity I.getLocalPlayer) a)) = fun a => [a] := by
      funext a
      exact playerLoopVisits_playerIteration I config _ a
    rw [this, flatMap_singleton_id]
  have h2 : ∀ l : List Int,
      playerLoopVisits (l.flatMap (weaponIteration I config)) = [] := by
    intro l
    unfold playerLoopVisits
    rw [filterMap_flatMap_eq]
    have : (fun a => List.filterMap (fun se : Site × Event =>
        match se with
        | (Site.playerLoop _, Event.getEntity j) => some j
        | _ => none) (weaponIteration I config a)) = fun _ => [] := by
      funext a
      exact playerLoopVisits_weaponIteration I config a
    rw [this, flatMap_nil_const]
  have happ : ∀ a b : List (Site × Event),
      playerLoopVisits (a ++ b) = playerLoopVisits a ++ playerLoopVisits b := by
    intro a b
    unfold playerLoopVisits
    exact List.filterMap_append _ _ _
  have hcons : ∀ (x : Site × Event) (l : List (Site × Event)), x :: l = [x] ++ l := fun _ _ => rfl
  unfold Esp.render
  simp only [hg, if_true]
  rw [hcons, happ, happ, h1, h2, List.append_nil]
  rfl

theorem weaponLoopVisits_render (I : Interfaces) (config : EspConfig) (hg : I.isInGame = true) :
    weaponLoopVisits (Esp.render I config) =
      loopIndices (I.getMaxClients + 1) I.getHighestEntityIndex := by
  have h1 : ∀ l : List Int,
      weaponLoopVisits (l.flatMap (playerIteration I config (I.getEntity I.getLocalPlayer))) = [] := by
    intro l
    unfold weaponLoopVisits
    rw [filterMap_flatMap_eq]
    have : (fun a => List.filterMap (fun se : Site × Event =>
        match se with
        | (Site.weaponLoop _, Event.getEntity j) => some j
        | _ => none) (playerIteration I config (I.getEntity I.getLocalPlayer) a)) = fun _ => [] := by
      funext a
      exact weaponLoopVisits_playerIteration I config _ a
    rw [this, flatMap_nil_const]
  have h2 : ∀ l : List Int,
      weaponLoopVisits (l.flatMap (weaponIteration I config)) = l := by
    intro l
    unfold weaponLoopVisits
    rw [filterMap_flatMap_eq]
    have : (fun a => List.filterMap (fun se : Site × Event =>
        match se with
        | (Site.weaponLoop _, Event.getEntity j) => some j
        | _ => none) (weaponIteration I config a)) = fun a => [a] := by
      funext a
      exact weaponLoopVisits_weaponIteration I config a
    rw [this, flatMap_singleton_id]
  have happ : ∀ a b : List (Site × Event),
      weaponLoopVisits (a ++ b) = weaponLoopVisits a ++ weaponLoopVisits b := by
    intro a b
    unfold weaponLoopVisits
    exact List.filterMap_append _ _ _
  have hcons : ∀ (x : Site × Event) (l : List (Site × Event)), x :: l = [x] ++ l := fun _ _ => rfl
  unfold Esp.render
  simp only [hg, if_true]
  rw [hcons, happ, happ, h1, h2]
  rfl

theorem lookup_sites (I : Interfaces) (config : EspConfig) (s : Site) (j : Int)
    (h : (s, Event.getEntity j) ∈ Esp.render I config) :
    s = Site.playerLoop j ∨ s = Site.weaponLoop j ∨ j = I.getLocalPlayer := by
  obtain ⟨_, h | ⟨k, _, h⟩ | ⟨k, _, h⟩⟩ := mem_render I config _ h
  · injection h with _ e2
    injection e2 with e3
    exact Or.inr (Or.inr e3)
  · unfold playerIteration at h
    rcases List.mem_cons.mp h with h | h
    · injection h with e1 e2
      injection e2 with e3
      subst e3
      exact Or.inl e1
    · obtain ⟨entity, id, _, _, _, _, _, hev⟩ := playerBody_sites _ _ _ _ _ h
      exact Or.inr (Or.inr (renderEspForEntity_lookup _ _ _ _ _ hev))
  · unfold weaponIteration at h
    rcases List.mem_cons.mp h with h | h
    · injection h with e1 e2
      injection e2 with e3
      subst e3
      exact Or.inr (Or.inl e1)
    · obtain ⟨entity, _, _, _, hev⟩ := weaponBody_sites _ _ _ _ h
      exact absurd hev (renderWeaponEsp_surface _ _ _ _)

/-- C5 (as amended): when `isInGame()` holds, the first loop looks up exactly the
indices `1..maxClients` and the second exactly `maxClients+1..highestEntityIndex`,
each in increasing order; the two ranges are disjoint; index 0 is not visited
when `maxClients >= 0`; every index in `1..max(maxClients, highestEntityIndex)`
is looked up exactly once by the two loops; any other lookup of the frame is a
lookup of the local player's index; and no index receives both
`renderEspForEntity` and `renderWeaponEsp`. -/
theorem render_scan (I : Interfaces) (config : EspConfig) (hg : I.isInGame = true) :
    playerLoopVisits (Esp.render I config) = loopIndices 1 I.getMaxClients ∧
    weaponLoopVisits (Esp.render I config) =
      loopIndices (I.getMaxClients + 1) I.getHighestEntityIndex ∧
    (∀ i, i ∈ playerLoopVisits (Esp.render I config) ↔ 1 ≤ i ∧ i ≤ I.getMaxClients) ∧
    (∀ i, i ∈ weaponLoopVisits (Esp.render I config) ↔
      I.getMaxClients + 1 ≤ i ∧ i ≤ I.getHighestEntityIndex) ∧
    (∀ i, ¬ (i ∈ playerLoopVisits (Esp.render I config) ∧
      i ∈ weaponLoopVisits (Esp.render I config))) ∧
    (0 ≤ I.getMaxClients →
      0 ∉ playerLoopVisits (Esp.render I config) ∧ 0 ∉ weaponLoopVisits (Esp.render I config)) ∧
    (∀ i, 1 ≤ i → i ≤ max I.getMaxClients I.getHighestEntityIndex →
      (playerLoopVisits (Esp.render I config) ++ weaponLoopVisits (Esp.render I config)).count i
        = 1) ∧
    (∀ s j, (s, Event.getEntity j) ∈ Esp.render I config →
      s = Site.playerLoop j ∨ s = Site.weaponLoop j ∨ j = I.getLocalPlayer) ∧
    (∀ i id ev ev2, (Site.playerEsp i id, ev) ∈ Esp.render I config →
      (Site.weaponEsp i, ev2) ∈ Esp.render I config → False) := by
  have hp := playerLoopVisits_render I config hg
  have hw := weaponLoopVisits_render I config hg
  refine ⟨hp, hw, ?_, ?_, ?_, ?_, ?_, lookup_sites I config, ?_⟩
  · intro i
    rw [hp, mem_loopIndices]
  · intro i
    rw [hw, mem_loopIndices]
  · intro i
    rw [hp, hw, mem_loopIndices, mem_loopIndices]
    omega
  · intro h0
    rw [hp, hw, mem_loopIndices, mem_loopIndices]
    omega
  · intro i h1 h2
    rw [hp, hw]
    apply List.count_eq_one_of_mem
    · rw [List.nodup_append]
      refine ⟨nodup_loopIndices _ _, nodup_loopIndices _ _, ?_⟩
      intro a ha hb
      rw [mem_loopIndices] at ha hb
      omega
    · rw [List.mem_append, mem_loopIndices, mem_loopIndices]
      rcases le_max_iff.mp h2 with h | h
      · exact Or.inl ⟨h1, h⟩
      · by_cases hc : i ≤ I.getMaxClients
        · exact Or.inl ⟨h1, hc⟩
        · exact Or.inr ⟨by omega, h⟩
  · intro i id ev ev2 h h2
    obtain ⟨_, ⟨_, hle⟩, _⟩ := mem_render_playerEsp I config i id ev h
    obtain ⟨_, ⟨hge, _⟩, _⟩ := mem_render_weaponEsp I config i ev2 h2
    omega

/-- Witness of C5 (as amended): a host in game with one client slot. -/
theorem render_scan_witness :
    (plainHost (100, 100) 1 1 0 oneEntity).isInGame = true ∧
    playerLoopVisits (Esp.render (plainHost (100, 100) 1 1 0 oneEntity) plainConfig) =
      loopIndices 1 (plainHost (100, 100) 1 1 0 oneEntity).getMaxClients :=
  ⟨rfl, (render_scan (plainHost (100, 100) 1 1 0 oneEntity) plainConfig rfl).1⟩

/-- Counterexample to C5 as stated.  (1) With `maxClients = -1` and
`highestEntityIndex = 0` the second loop starts at index 0 and looks it up.
(2) When `isInGame()` is false nothing is looked up, so index 1 of a host with
`maxClients = 1` is not looked up once.  (3) With the local player at index 1,
index 1 is looked up twice in the frame: once before the loops and once by the
first loop. -/
theorem render_scan_counterexample :
    (0 ∈ weaponLoopVisits (Esp.render (plainHost (100, 100) (-1) 0 0 fun _ => none) plainConfig)) ∧
    (lookups (Esp.render
      { plainHost (100, 100) 1 1 0 oneEntity with isInGame := false } plainConfig)).count 1 = 0 ∧
    (lookups (Esp.render (plainHost (100, 100) 1 1 1 oneEntity) plainConfig)).count 1 = 2 := by
  refine ⟨?_, ?_, ?_⟩
  · rw [weaponLoopVisits_render _ _ rfl, mem_loopIndices]
    decide
  · simp [Esp.render, lookups]
  · have hr : Esp.render (plainHost (100, 100) 1 1 1 oneEntity) plainConfig =
        [(Site.prologue, Event.getEntity 1), (Site.playerLoop 1, Event.getEntity 1)] := by
      have hl1 : loopIndices 1 1 = [1] := by decide
      have hl2 : loopIndices 2 1 = [] := by decide
      simp [Esp.render, plainHost, hl1, hl2, playerIteration, playerBody, oneEntity,
        isLocalPlayer, plainEntity]
    rw [hr]
    decide

/-! ## Instances on concrete hosts -/

/-- Witness of C1: a visible ally at index 1, catch-all slot off, visible slot on. -/
theorem render_classification_witness :
    (plainHost (100, 100) 1 1 0 oneEntity).isInGame = true ∧
    (plainHost (100, 100) 1 1 0 oneEntity).getEntity 1 = some (plainEntity 1) ∧
    passesPlayerFilter (plainHost (100, 100) 1 1 0 oneEntity) (plainEntity 1) = true ∧
    espSlot visibleAlliesConfig (plainEntity 1) = EspId.ALLIES_VISIBLE ∧
    eventsAt (Esp.render (plainHost (100, 100) 1 1 0 oneEntity) visibleAlliesConfig) 1 =
      (Site.playerLoop 1, Event.getEntity 1) ::
      (if (visibleAlliesConfig.players (espSlot visibleAlliesConfig (plainEntity 1))).enabled then
        atSite (Site.playerEsp 1 (espSlot visibleAlliesConfig (plainEntity 1)))
          (renderSnaplines (plainHost (100, 100) 1 1 0 oneEntity) (plainEntity 1)
             (visibleAlliesConfig.players (espSlot visibleAlliesConfig (plainEntity 1))).toShared ++
           renderEyeTraces (plainHost (100, 100) 1 1 0 oneEntity) (plainEntity 1)
             (visibleAlliesConfig.players (espSlot visibleAlliesConfig (plainEntity 1))) ++
           renderPlayerBox (plainHost (100, 100) 1 1 0 oneEntity) (plainEntity 1)
             (visibleAlliesConfig.players (espSlot visibleAlliesConfig (plainEntity 1))) ++
           renderHeadDot (plainHost (100, 100) 1 1 0 oneEntity) (plainEntity 1)
             (visibleAlliesConfig.players (espSlot visibleAlliesConfig (plainEntity 1))))
       else []) :=
  ⟨rfl, rfl, rfl, rfl,
   (render_classification (plainHost (100, 100) 1 1 0 oneEntity) visibleAlliesConfig).1
     1 (plainEntity 1) rfl (by decide) (by decide) rfl rfl⟩

/-- Witness of C2: a dormant entity at index 1 gets no surface call. -/
theorem render_skips_witness :
    (plainHost (100, 100) 1 1 0 oneDormant).getEntity 1 =
      some { plainEntity 1 with isDormant := true } ∧
    drawsAt (Esp.render (plainHost (100, 100) 1 1 0 oneDormant) visibleAlliesConfig) 1 = [] :=
  ⟨rfl,
   (render_skips (plainHost (100, 100) 1 1 0 oneDormant) visibleAlliesConfig).2.1
     1 { plainEntity 1 with isDormant := true } rfl rfl⟩

/-- Witness of C9: an entity with 100 health points and a projectable box. -/
theorem healthBar_geometry_witness :
    1 ≤ farEntity.health ∧
    (boundingBox (plainHost (100, 100) 1 1 0 fun _ => none) farEntity
      BoundingBox.uninitialized).1 = true ∧
    1 ≤ maxHealth (plainHost (100, 100) 1 1 0 fun _ => none) farEntity :=
  ⟨by decide, farEntity_boundingBox_ok,
   (healthBar_geometry (plainHost (100, 100) 1 1 0 fun _ => none) farEntity plainPlayer
      (by decide) farEntity_boundingBox_ok).2.2.1⟩

end Jweega
